import Mathlib

/-!
# iyzico authorization: validation, canonical request strings and signing

A shallow embedding of `main.go` (package `iyzico`) and theorems about it.

Modelling conventions.

* A Go `string` is a Lean `String`; `s == ""` is `s = ""`, `+` is `++`.
* A Go `int` is a Lean `Int` (the program only compares it with `0` and prints it
  with `%d`, so no overflow can occur).
* A Go `error` is an `Option String`: `none` is `nil`, `some msg` is
  `errors.New(msg)`.
* A Go function returning `(string, string, error)` returns the triple
  `String × String × Option String`.
* The standard-library routines the program calls (`fmt.Sprintf`, `strings.Join`,
  `bytes.Buffer.WriteString`, `sha1`, `base64.StdEncoding`) are embedded as
  executable definitions, restricted to the way the program calls them.
* Strings are Unicode text; their bytes are those of the UTF-8 encoding.
-/

set_option autoImplicit false
set_option linter.dupNamespace false
set_option maxRecDepth 100000

namespace Iyzico

/-! ## Standard library: SHA-1 and base64 -/

/-- The UTF-8 encoding of one character, as a list of byte values. -/
def utf8EncodeNat (c : Char) : List Nat :=
  let v := c.toNat
  if v < 0x80 then [v]
  else if v < 0x800 then [0xC0 + v / 0x40, 0x80 + v % 0x40]
  else if v < 0x10000 then [0xE0 + v / 0x1000, 0x80 + (v / 0x40) % 0x40, 0x80 + v % 0x40]
  else [0xF0 + v / 0x40000, 0x80 + (v / 0x1000) % 0x40, 0x80 + (v / 0x40) % 0x40, 0x80 + v % 0x40]

/-- The conversion `[]byte(s)`: the bytes of the UTF-8 text `s`. -/
def stringBytes (s : String) : List Nat :=
  s.data.flatMap utf8EncodeNat

/-- Rotation to the left of a 32-bit word. -/
def rotl32 (x n : Nat) : Nat :=
  ((x <<< n) ||| (x >>> (32 - n))) % 2 ^ 32

/-- Big-endian bytes of `x`, `n` of them. -/
def bigEndian : Nat → Nat → List Nat
  | 0, _ => []
  | n + 1, x => (x / 256 ^ n) % 256 :: bigEndian n x

/-- The big-endian value of a list of bytes. -/
def fromBigEndian (bs : List Nat) : Nat :=
  bs.foldl (fun acc b => acc * 256 + b) 0

/-- SHA-1 padding: `0x80`, zero bytes up to 56 modulo 64, then the bit length on 64 bits. -/
def sha1Pad (msg : List Nat) : List Nat :=
  let len := msg.length
  let t := if len % 64 < 56 then 56 - len % 64 else 64 + 56 - len % 64
  msg ++ 0x80 :: List.replicate (t - 1) 0 ++ bigEndian 8 ((len * 8) % 2 ^ 64)

/-- The sixteen 32-bit words of a 64-byte block. -/
def blockWords : Nat → List Nat → List Nat
  | 0, _ => []
  | n + 1, bs => fromBigEndian (bs.take 4) :: blockWords n (bs.drop 4)

/-- Message schedule, most recent word first: `n` more words after those of `rev`. -/
def sha1Extend : Nat → List Nat → List Nat
  | 0, rev => rev
  | n + 1, rev =>
    sha1Extend n
      (rotl32 (rev.getD 2 0 ^^^ rev.getD 7 0 ^^^ rev.getD 13 0 ^^^ rev.getD 15 0) 1 :: rev)

/-- The five chaining words of SHA-1. -/
structure Sha1State where
  a : Nat
  b : Nat
  c : Nat
  d : Nat
  e : Nat

/-- One round of the compression function, at round index `t` with schedule word `w`. -/
def sha1Round (t w : Nat) (s : Sha1State) : Sha1State :=
  let f :=
    if t < 20 then (s.b &&& s.c) ||| ((s.b ^^^ 0xFFFFFFFF) &&& s.d)
    else if t < 40 then s.b ^^^ s.c ^^^ s.d
    else if t < 60 then ((s.b ||| s.c) &&& s.d) ||| (s.b &&& s.c)
    else s.b ^^^ s.c ^^^ s.d
  let k :=
    if t < 20 then 0x5A827999
    else if t < 40 then 0x6ED9EBA1
    else if t < 60 then 0x8F1BBCDC
    else 0xCA62C1D6
  match (rotl32 s.a 5 + f + s.e + w + k) % 2 ^ 32, rotl32 s.b 30 with
  | tmp, b30 => ⟨tmp, s.a, b30, s.c, s.d⟩

/-- The rounds over the schedule words from index `t` on. -/
def sha1Rounds : Nat → List Nat → Sha1State → Sha1State
  | _, [], s => s
  | t, w :: ws, s => sha1Rounds (t + 1) ws (sha1Round t w s)

/-- The compression of one 64-byte block into the chaining state. -/
def sha1Block (h : Sha1State) (block : List Nat) : Sha1State :=
  let ws := (sha1Extend 64 (blockWords 16 block).reverse).reverse
  let r := sha1Rounds 0 ws h
  ⟨(h.a + r.a) % 2 ^ 32, (h.b + r.b) % 2 ^ 32, (h.c + r.c) % 2 ^ 32,
   (h.d + r.d) % 2 ^ 32, (h.e + r.e) % 2 ^ 32⟩

/-- The compression of `n` consecutive blocks. -/
def sha1Blocks : Nat → Sha1State → List Nat → Sha1State
  | 0, h, _ => h
  | n + 1, h, bs => sha1Blocks n (sha1Block h (bs.take 64)) (bs.drop 64)

/-- The 20-byte SHA-1 digest of a byte sequence (`sha1.New`, `Write`, `Sum(nil)`). -/
def sha1Sum (msg : List Nat) : List Nat :=
  let padded := sha1Pad msg
  let h := sha1Blocks (padded.length / 64)
    ⟨0x67452301, 0xEFCDAB89, 0x98BADCFE, 0x10325476, 0xC3D2E1F0⟩ padded
  bigEndian 4 h.a ++ bigEndian 4 h.b ++ bigEndian 4 h.c ++ bigEndian 4 h.d ++ bigEndian 4 h.e

/-- The standard base64 alphabet. -/
def base64Alphabet : List Char :=
  "ABCDEFGHIJKLMNOPQRSTUVWXYZabcdefghijklmnopqrstuvwxyz0123456789+/".data

/-- The base64 character of a 6-bit value. -/
def base64Char (v : Nat) : Char :=
  base64Alphabet.getD v 'A'

/-- Standard base64 with `=` padding, three bytes at a time. -/
def base64Chars : List Nat → List Char
  | [] => []
  | [x] => [base64Char (x / 4), base64Char ((x % 4) * 16), '=', '=']
  | [x, y] =>
    [base64Char (x / 4), base64Char ((x % 4) * 16 + y / 16), base64Char ((y % 16) * 4), '=']
  | x :: y :: z :: rest =>
    base64Char (x / 4) :: base64Char ((x % 4) * 16 + y / 16) ::
      base64Char ((y % 16) * 4 + z / 64) :: base64Char (z % 64) :: base64Chars rest

/-- The function `base64.StdEncoding.EncodeToString`. -/
def EncodeToString (bs : List Nat) : String :=
  ⟨base64Chars bs⟩

/-! ## Standard library: formatting, joining, buffers -/

/-- An operand of `fmt.Sprintf`: the program passes strings (for `%s`) and ints (for `%d`). -/
inductive FmtArg where
  | str (s : String)
  | int (i : Int)

/-- The decimal digit character of `d < 10`. -/
def digitChar (d : Nat) : Char :=
  Char.ofNat (48 + d)

/-- The digit loop of `fmtInteger`: while `u >= 10` emit `u % 10` and divide; the digits are
written from the end of the buffer backwards, so they come out most significant first.
The first argument bounds the number of iterations (`u` itself is always enough). -/
def fmtDigits : Nat → Nat → List Char → List Char
  | 0, u, acc => digitChar (u % 10) :: acc
  | fuel + 1, u, acc =>
    if 10 ≤ u then fmtDigits fuel (u / 10) (digitChar (u % 10) :: acc)
    else digitChar u :: acc

/-- The verb `%d` on an int: a minus sign for a negative value, then the decimal digits of
its magnitude. -/
def fmtInteger (i : Int) : List Char :=
  let u := i.natAbs
  let digits := fmtDigits u u []
  if i < 0 then '-' :: digits else digits

/-- The scan of `fmt.Sprintf` over the format: `%s` consumes a string operand and `%d` an int
operand, every other character is copied. (The program always supplies operands that match
its verbs; the error renderings of mismatches are not modelled, such a verb is copied.) -/
def doPrintf : List Char → List FmtArg → List Char
  | [], _ => []
  | c :: rest, args =>
    if c = '%' then
      match rest, args with
      | v :: rest2, FmtArg.str s :: args2 =>
        if v = 's' then s.data ++ doPrintf rest2 args2 else c :: v :: doPrintf rest2 args
      | v :: rest2, FmtArg.int i :: args2 =>
        if v = 'd' then fmtInteger i ++ doPrintf rest2 args2 else c :: v :: doPrintf rest2 args
      | v :: rest2, [] => c :: v :: doPrintf rest2 []
      | [], _ => [c]
    else c :: doPrintf rest args

/-- The function `fmt.Sprintf`. -/
def Sprintf (format : String) (args : List FmtArg) : String :=
  ⟨doPrintf format.data args⟩

/-- The function `strings.Join`: nothing for no element, else the first element followed by
each further element preceded by the separator. -/
def Join (elems : List String) (sep : String) : String :=
  match elems with
  | [] => ""
  | first :: rest => rest.foldl (fun b s => b ++ sep ++ s) first

/-- The method `WriteString` of `bytes.Buffer`: the buffer content afterwards. -/
def WriteString (buffer : String) (s : String) : String :=
  buffer ++ s

/-! ## Data model -/

structure PaymentCard where
  CardHolderName : String
  CardNumber : String
  ExpireYear : String
  ExpireMonth : String
  Cvc : String
  RegisterCard : Int
  deriving DecidableEq

structure Buyer where
  Id : String
  Name : String
  Surname : String
  IdentityNumber : String
  Email : String
  GsmNumber : String
  RegistrationDate : String
  LastLoginDate : String
  RegistrationAddress : String
  City : String
  Country : String
  ZipCode : String
  Ip : String
  deriving DecidableEq

structure Address where
  Address : String
  ZipCode : String
  ContactName : String
  City : String
  Country : String
  deriving DecidableEq

structure BasketItem where
  Id : String
  Name : String
  Category1 : String
  Category2 : String
  ItemType : String
  Price : String
  deriving DecidableEq

structure BillingAddress where
  Address : String
  ContactName : String
  City : String
  Country : String
  deriving DecidableEq

structure CreatePaymentRequest where
  Locale : String
  ConversationID : String
  Price : String
  PaidPrice : String
  Installment : Int
  PaymentChannel : String
  BasketID : String
  PaymentGroup : String
  PaymentCard : PaymentCard
  Buyer : Buyer
  ShippingAddress : Address
  BillingAddress : BillingAddress
  BasketItems : List BasketItem
  Currency : String
  deriving DecidableEq

structure InitializeBkmRequest where
  Locale : String
  ConversationID : String
  Price : String
  PaymentChannel : String
  BasketID : String
  PaymentGroup : String
  PaymentCard : PaymentCard
  Buyer : Buyer
  ShippingAddress : Address
  BillingAddress : Address
  BasketItems : List BasketItem
  CallbackURL : String
  deriving DecidableEq

/-! ## Canonical strings -/

def FormatBasketItems (items : List BasketItem) : String :=
  let result := items.foldl
    (fun (result : List String) item =>
      let itemStr := Sprintf "[id=%s,price=%s,name=%s,category1=%s,category2=%s,itemType=%s]"
        [.str item.Id, .str item.Price, .str item.Name, .str item.Category1,
         .str item.Category2, .str item.ItemType]
      result ++ [itemStr])
    []
  Join result ", "

def FormatAddress (address : Address) : String :=
  Sprintf "[address=%s,zipCode=%s,contactName=%s,city=%s,country=%s]"
    [.str address.Address, .str address.ZipCode, .str address.ContactName, .str address.City,
     .str address.Country]

def FormatBuyer (buyer : Buyer) : String :=
  Sprintf "[id=%s,name=%s,surname=%s,identityNumber=%s,email=%s,gsmNumber=%s,registrationDate=%s,lastLoginDate=%s,registrationAddress=%s,city=%s,country=%s,zipCode=%s,ip=%s]"
    [.str buyer.Id, .str buyer.Name, .str buyer.Surname, .str buyer.IdentityNumber,
     .str buyer.Email, .str buyer.GsmNumber, .str buyer.RegistrationDate,
     .str buyer.LastLoginDate, .str buyer.RegistrationAddress, .str buyer.City,
     .str buyer.Country, .str buyer.ZipCode, .str buyer.Ip]

def FormatInitializeBkm (initializeBkm : InitializeBkmRequest) : String :=
  let buffer := ""
  let buffer := WriteString buffer "["
  let buffer := WriteString buffer (Sprintf "locale=%s," [.str initializeBkm.Locale])
  let buffer := WriteString buffer (Sprintf "conversationId=%s," [.str initializeBkm.ConversationID])
  let buffer := WriteString buffer (Sprintf "price=%s," [.str initializeBkm.Price])
  let buffer := WriteString buffer (Sprintf "basketId=%s," [.str initializeBkm.BasketID])
  let buffer := WriteString buffer (Sprintf "paymentGroup=%s," [.str initializeBkm.PaymentGroup])
  let buffer := WriteString buffer "buyer="
  let buffer := WriteString buffer (FormatBuyer initializeBkm.Buyer)
  let buffer := WriteString buffer ","
  let buffer := WriteString buffer "shippingAddress="
  let buffer := WriteString buffer (FormatAddress initializeBkm.ShippingAddress)
  let buffer := WriteString buffer ","
  let buffer := WriteString buffer "billingAddress="
  let buffer := WriteString buffer (FormatAddress initializeBkm.BillingAddress)
  let buffer := WriteString buffer ","
  let buffer := WriteString buffer "basketItems=["
  let buffer := WriteString buffer (FormatBasketItems initializeBkm.BasketItems)
  let buffer := WriteString buffer "],"
  let buffer := WriteString buffer (Sprintf "callbackUrl=%s" [.str initializeBkm.CallbackURL])
  let buffer := WriteString buffer "]"
  buffer

def FormatPaymentCard (paymentCard : PaymentCard) : String :=
  Sprintf "[cardHolderName=%s,cardNumber=%s,expireYear=%s,expireMonth=%s,cvc=%s,registerCard=%d]"
    [.str paymentCard.CardHolderName, .str paymentCard.CardNumber, .str paymentCard.ExpireYear,
     .str paymentCard.ExpireMonth, .str paymentCard.Cvc, .int paymentCard.RegisterCard]

def FormatBillingAddress (address : BillingAddress) : String :=
  Sprintf "[address=%s,contactName=%s,city=%s,country=%s]"
    [.str address.Address, .str address.ContactName, .str address.City, .str address.Country]

def FormatCreatePayment (createPayment : CreatePaymentRequest) : String :=
  let buffer := ""
  let buffer := WriteString buffer "["
  let buffer := WriteString buffer (Sprintf "locale=%s," [.str createPayment.Locale])
  let buffer := WriteString buffer (Sprintf "conversationId=%s," [.str createPayment.ConversationID])
  let buffer := WriteString buffer (Sprintf "price=%s," [.str createPayment.Price])
  let buffer := WriteString buffer (Sprintf "paidPrice=%s," [.str createPayment.PaidPrice])
  let buffer := WriteString buffer (Sprintf "installment=%d," [.int createPayment.Installment])
  let buffer := WriteString buffer (Sprintf "paymentChannel=%s," [.str createPayment.PaymentChannel])
  let buffer := WriteString buffer (Sprintf "basketId=%s," [.str createPayment.BasketID])
  let buffer := WriteString buffer (Sprintf "paymentGroup=%s," [.str createPayment.PaymentGroup])
  let buffer := WriteString buffer "paymentCard="
  let buffer := WriteString buffer (FormatPaymentCard createPayment.PaymentCard)
  let buffer := WriteString buffer ","
  let buffer := WriteString buffer "buyer="
  let buffer := WriteString buffer (FormatBuyer createPayment.Buyer)
  let buffer := WriteString buffer ","
  let buffer := WriteString buffer "shippingAddress="
  let buffer := WriteString buffer (FormatAddress createPayment.ShippingAddress)
  let buffer := WriteString buffer ","
  let buffer := WriteString buffer "billingAddress="
  let buffer := WriteString buffer (FormatBillingAddress createPayment.BillingAddress)
  let buffer := WriteString buffer ","
  let buffer := WriteString buffer "basketItems=["
  let buffer := WriteString buffer (FormatBasketItems createPayment.BasketItems)
  let buffer := WriteString buffer "],"
  let buffer := WriteString buffer (Sprintf "currency=%s" [.str createPayment.Currency])
  let buffer := WriteString buffer "]"
  buffer

/-! ## Validation -/

def ValidatePaymentCard (card : PaymentCard) : Option String :=
  if card.CardHolderName = "" then some "CardHolderName is empty"
  else if card.CardNumber = "" then some "CardNumber is empty"
  else if card.ExpireYear = "" then some "ExpireYear is empty"
  else if card.ExpireMonth = "" then some "ExpireMonth is empty"
  else if card.Cvc = "" then some "Cvc is empty"
  else if card.RegisterCard = 0 then some "RegisterCard is zero"
  else none

def ValidateBuyer (buyer : Buyer) : Option String :=
  if buyer.Id = "" then some "Id is empty"
  else if buyer.Name = "" then some "Name is empty"
  else if buyer.Surname = "" then some "Surname is empty"
  else if buyer.IdentityNumber = "" then some "IdentityNumber is empty"
  else if buyer.Email = "" then some "Email is empty"
  else if buyer.GsmNumber = "" then some "GsmNumber is empty"
  else if buyer.RegistrationDate = "" then some "RegistrationDate is empty"
  else if buyer.LastLoginDate = "" then some "LastLoginDate is empty"
  else if buyer.RegistrationAddress = "" then some "RegistrationAddress is empty"
  else if buyer.City = "" then some "City is empty"
  else if buyer.Country = "" then some "Country is empty"
  else if buyer.ZipCode = "" then some "ZipCode is empty"
  else if buyer.Ip = "" then some "Ip is empty"
  else none

def ValidateAddress (address : Address) : Option String :=
  if address.Address = "" then some "Address is empty"
  else if address.ZipCode = "" then some "ZipCode is empty"
  else if address.ContactName = "" then some "ContactName is empty"
  else if address.City = "" then some "City is empty"
  else if address.Country = "" then some "Country is empty"
  else none

def ValidateBillingAddress (address : BillingAddress) : Option String :=
  if address.Address = "" then some "Address is empty"
  else if address.ContactName = "" then some "ContactName is empty"
  else if address.City = "" then some "City is empty"
  else if address.Country = "" then some "Country is empty"
  else none

def ValidateInitializeBkmRequest (request : InitializeBkmRequest) : Option String :=
  if request.Locale = "" then some "Locale is empty"
  else if request.ConversationID = "" then some "ConversationID is empty"
  else if request.Price = "" then some "Price is empty"
  else if request.PaymentChannel = "" then some "PaymentChannel is empty"
  else if request.BasketID = "" then some "BasketID is empty"
  else if request.PaymentGroup = "" then some "PaymentGroup is empty"
  else
    match ValidatePaymentCard request.PaymentCard with
    | some err => some err
    | none =>
    match ValidateBuyer request.Buyer with
    | some err => some err
    | none =>
    match ValidateAddress request.ShippingAddress with
    | some err => some err
    | none =>
    match ValidateAddress request.BillingAddress with
    | some err => some err
    | none =>
    if request.BasketItems.length = 0 then some "BasketItems is empty"
    else if request.CallbackURL = "" then some "CallbackURL is empty"
    else none

def ValidateCreatePaymentRequest (request : CreatePaymentRequest) : Option String :=
  if request.Locale = "" then some "Locale is empty"
  else if request.ConversationID = "" then some "ConversationID is empty"
  else if request.Price = "" then some "Price is empty"
  else if request.PaidPrice = "" then some "PaidPrice is empty"
  else if request.Installment = 0 then some "Installment is zero"
  else if request.PaymentChannel = "" then some "PaymentChannel is empty"
  else if request.BasketID = "" then some "BasketID is empty"
  else if request.PaymentGroup = "" then some "PaymentGroup is empty"
  else
    match ValidatePaymentCard request.PaymentCard with
    | some err => some err
    | none =>
    match ValidateBuyer request.Buyer with
    | some err => some err
    | none =>
    match ValidateAddress request.ShippingAddress with
    | some err => some err
    | none =>
    match ValidateBillingAddress request.BillingAddress with
    | some err => some err
    | none =>
    if request.BasketItems.length = 0 then some "BasketItems is empty"
    else if request.Currency = "" then some "Currency is empty"
    else none

/-! ## Signing and orchestration -/

def GetAuthorizationAndPkiString (apiKey rnd secretKey requestString : String) :
    String × String × Option String :=
  if apiKey = "" ∨ rnd = "" ∨ secretKey = "" ∨ requestString = "" then
    ("", "", some "apiKey, rnd, secretKey, or requestString is empty")
  else
    let hash := sha1Sum (stringBytes (apiKey ++ rnd ++ secretKey ++ requestString))
    let hashInBase64 := EncodeToString hash
    let authorization := Sprintf "IYZWS %s:%s" [.str apiKey, .str hashInBase64]
    let pkiString := apiKey ++ rnd ++ secretKey ++ requestString
    (authorization, pkiString, none)

def GenerateAuthorizationAndPkiString (apiKey secretKey : String)
    (request : InitializeBkmRequest) (rnd : String) : String × String × Option String :=
  if apiKey = "" ∨ secretKey = "" ∨ rnd = "" then
    ("", "", some "apiKey, secretKey, or rnd is empty")
  else
    match ValidateInitializeBkmRequest request with
    | some err => ("", "", some err)
    | none =>
      let requestString := FormatInitializeBkm request
      GetAuthorizationAndPkiString apiKey rnd secretKey requestString

def GenerateAuthorizationAndPkiStringForCreatePayment (apiKey secretKey : String)
    (request : CreatePaymentRequest) (rnd : String) : String × String × Option String :=
  if apiKey = "" ∨ secretKey = "" ∨ rnd = "" then
    ("", "", some "apiKey, secretKey, or rnd is empty")
  else
    match ValidateCreatePaymentRequest request with
    | some err => ("", "", some err)
    | none =>
      let requestString := FormatCreatePayment request
      GetAuthorizationAndPkiString apiKey rnd secretKey requestString

/-! ## Specification-side definitions

The definitions below do not come from the program: they restate, in the words of the
specification, what the program is compared with. -/

/-- The canonical block of one basket item: id, price, name, category1, category2, itemType. -/
def basketItemBlock (item : BasketItem) : String :=
  "[id=" ++ item.Id ++ ",price=" ++ item.Price ++ ",name=" ++ item.Name ++ ",category1="
    ++ item.Category1 ++ ",category2=" ++ item.Category2 ++ ",itemType=" ++ item.ItemType ++ "]"

/-- The error of the first violated check of a list of checks, each a pair of "is violated"
and the error it reports; `none` when no check is violated. -/
def firstViolated : List (Bool × String) → Option String
  | [] => none
  | (violated, err) :: rest => if violated then some err else firstViolated rest

/-- The six checks on a payment card, in order. -/
def cardChecks (c : PaymentCard) : List (Bool × String) :=
  [(decide (c.CardHolderName = ""), "CardHolderName is empty"),
   (decide (c.CardNumber = ""), "CardNumber is empty"),
   (decide (c.ExpireYear = ""), "ExpireYear is empty"),
   (decide (c.ExpireMonth = ""), "ExpireMonth is empty"),
   (decide (c.Cvc = ""), "Cvc is empty"),
   (decide (c.RegisterCard = 0), "RegisterCard is zero")]

/-- The thirteen checks on a buyer, in order. -/
def buyerChecks (b : Buyer) : List (Bool × String) :=
  [(decide (b.Id = ""), "Id is empty"),
   (decide (b.Name = ""), "Name is empty"),
   (decide (b.Surname = ""), "Surname is empty"),
   (decide (b.IdentityNumber = ""), "IdentityNumber is empty"),
   (decide (b.Email = ""), "Email is empty"),
   (decide (b.GsmNumber = ""), "GsmNumber is empty"),
   (decide (b.RegistrationDate = ""), "RegistrationDate is empty"),
   (decide (b.LastLoginDate = ""), "LastLoginDate is empty"),
   (decide (b.RegistrationAddress = ""), "RegistrationAddress is empty"),
   (decide (b.City = ""), "City is empty"),
   (decide (b.Country = ""), "Country is empty"),
   (decide (b.ZipCode = ""), "ZipCode is empty"),
   (decide (b.Ip = ""), "Ip is empty")]

/-- The five checks of the Address rules, in order. -/
def addressChecks (a : Address) : List (Bool × String) :=
  [(decide (a.Address = ""), "Address is empty"),
   (decide (a.ZipCode = ""), "ZipCode is empty"),
   (decide (a.ContactName = ""), "ContactName is empty"),
   (decide (a.City = ""), "City is empty"),
   (decide (a.Country = ""), "Country is empty")]

/-- The four checks of the BillingAddress rules, in order (no zip code). -/
def billingAddressChecks (a : BillingAddress) : List (Bool × String) :=
  [(decide (a.Address = ""), "Address is empty"),
   (decide (a.ContactName = ""), "ContactName is empty"),
   (decide (a.City = ""), "City is empty"),
   (decide (a.Country = ""), "Country is empty")]

/-- The checks on a CreatePaymentRequest in the depth-first order of the specification. -/
def createPaymentChecks (r : CreatePaymentRequest) : List (Bool × String) :=
  [(decide (r.Locale = ""), "Locale is empty"),
   (decide (r.ConversationID = ""), "ConversationID is empty"),
   (decide (r.Price = ""), "Price is empty"),
   (decide (r.PaidPrice = ""), "PaidPrice is empty"),
   (decide (r.Installment = 0), "Installment is zero"),
   (decide (r.PaymentChannel = ""), "PaymentChannel is empty"),
   (decide (r.BasketID = ""), "BasketID is empty"),
   (decide (r.PaymentGroup = ""), "PaymentGroup is empty")]
  ++ cardChecks r.PaymentCard
  ++ buyerChecks r.Buyer
  ++ addressChecks r.ShippingAddress
  ++ billingAddressChecks r.BillingAddress
  ++ [(decide (r.BasketItems = []), "BasketItems is empty"),
      (decide (r.Currency = ""), "Currency is empty")]

/-- The checks on an InitializeBkmRequest in the depth-first order of the specification. -/
def initializeBkmChecks (r : InitializeBkmRequest) : List (Bool × String) :=
  [(decide (r.Locale = ""), "Locale is empty"),
   (decide (r.ConversationID = ""), "ConversationID is empty"),
   (decide (r.Price = ""), "Price is empty"),
   (decide (r.PaymentChannel = ""), "PaymentChannel is empty"),
   (decide (r.BasketID = ""), "BasketID is empty"),
   (decide (r.PaymentGroup = ""), "PaymentGroup is empty")]
  ++ cardChecks r.PaymentCard
  ++ buyerChecks r.Buyer
  ++ addressChecks r.ShippingAddress
  ++ addressChecks r.BillingAddress
  ++ [(decide (r.BasketItems = []), "BasketItems is empty"),
      (decide (r.CallbackURL = ""), "CallbackURL is empty")]

/-- The mandatory fields of a CreatePaymentRequest: the fields its validation requires to be
non-empty (strings, the basket-item sequence) or non-zero (the two integers). The fields
inside a basket item are not among them. -/
inductive MandatoryField where
  | Locale | ConversationID | Price | PaidPrice | Installment | PaymentChannel | BasketID
  | PaymentGroup
  | CardHolderName | CardNumber | ExpireYear | ExpireMonth | Cvc | RegisterCard
  | BuyerId | BuyerName | BuyerSurname | BuyerIdentityNumber | BuyerEmail | BuyerGsmNumber
  | BuyerRegistrationDate | BuyerLastLoginDate | BuyerRegistrationAddress | BuyerCity
  | BuyerCountry | BuyerZipCode | BuyerIp
  | ShippingAddress | ShippingZipCode | ShippingContactName | ShippingCity | ShippingCountry
  | BillingAddress | BillingContactName | BillingCity | BillingCountry
  | BasketItems | Currency
  deriving DecidableEq

/-- The name of a mandatory field: the name of the field in its own structure. -/
def MandatoryField.fieldName : MandatoryField → String
  | .Locale => "Locale" | .ConversationID => "ConversationID" | .Price => "Price"
  | .PaidPrice => "PaidPrice" | .Installment => "Installment"
  | .PaymentChannel => "PaymentChannel" | .BasketID => "BasketID"
  | .PaymentGroup => "PaymentGroup"
  | .CardHolderName => "CardHolderName" | .CardNumber => "CardNumber"
  | .ExpireYear => "ExpireYear" | .ExpireMonth => "ExpireMonth" | .Cvc => "Cvc"
  | .RegisterCard => "RegisterCard"
  | .BuyerId => "Id" | .BuyerName => "Name" | .BuyerSurname => "Surname"
  | .BuyerIdentityNumber => "IdentityNumber" | .BuyerEmail => "Email"
  | .BuyerGsmNumber => "GsmNumber" | .BuyerRegistrationDate => "RegistrationDate"
  | .BuyerLastLoginDate => "LastLoginDate"
  | .BuyerRegistrationAddress => "RegistrationAddress" | .BuyerCity => "City"
  | .BuyerCountry => "Country" | .BuyerZipCode => "ZipCode" | .BuyerIp => "Ip"
  | .ShippingAddress => "Address" | .ShippingZipCode => "ZipCode"
  | .ShippingContactName => "ContactName" | .ShippingCity => "City"
  | .ShippingCountry => "Country"
  | .BillingAddress => "Address" | .BillingContactName => "ContactName"
  | .BillingCity => "City" | .BillingCountry => "Country"
  | .BasketItems => "BasketItems" | .Currency => "Currency"

/-- Whether a mandatory field is one of the two integer fields. -/
def MandatoryField.isInteger : MandatoryField → Bool
  | .Installment => true
  | .RegisterCard => true
  | _ => false

/-- The request with one mandatory field cleared: a string set to `""`, an integer to `0`,
the basket-item sequence to the empty sequence. -/
def clearField (f : MandatoryField) (r : CreatePaymentRequest) : CreatePaymentRequest :=
  match f with
  | .Locale => { r with Locale := "" }
  | .ConversationID => { r with ConversationID := "" }
  | .Price => { r with Price := "" }
  | .PaidPrice => { r with PaidPrice := "" }
  | .Installment => { r with Installment := 0 }
  | .PaymentChannel => { r with PaymentChannel := "" }
  | .BasketID => { r with BasketID := "" }
  | .PaymentGroup => { r with PaymentGroup := "" }
  | .CardHolderName => { r with PaymentCard := { r.PaymentCard with CardHolderName := "" } }
  | .CardNumber => { r with PaymentCard := { r.PaymentCard with CardNumber := "" } }
  | .ExpireYear => { r with PaymentCard := { r.PaymentCard with ExpireYear := "" } }
  | .ExpireMonth => { r with PaymentCard := { r.PaymentCard with ExpireMonth := "" } }
  | .Cvc => { r with PaymentCard := { r.PaymentCard with Cvc := "" } }
  | .RegisterCard => { r with PaymentCard := { r.PaymentCard with RegisterCard := 0 } }
  | .BuyerId => { r with Buyer := { r.Buyer with Id := "" } }
  | .BuyerName => { r with Buyer := { r.Buyer with Name := "" } }
  | .BuyerSurname => { r with Buyer := { r.Buyer with Surname := "" } }
  | .BuyerIdentityNumber => { r with Buyer := { r.Buyer with IdentityNumber := "" } }
  | .BuyerEmail => { r with Buyer := { r.Buyer with Email := "" } }
  | .BuyerGsmNumber => { r with Buyer := { r.Buyer with GsmNumber := "" } }
  | .BuyerRegistrationDate => { r with Buyer := { r.Buyer with RegistrationDate := "" } }
  | .BuyerLastLoginDate => { r with Buyer := { r.Buyer with LastLoginDate := "" } }
  | .BuyerRegistrationAddress =>
    { r with Buyer := { r.Buyer with RegistrationAddress := "" } }
  | .BuyerCity => { r with Buyer := { r.Buyer with City := "" } }
  | .BuyerCountry => { r with Buyer := { r.Buyer with Country := "" } }
  | .BuyerZipCode => { r with Buyer := { r.Buyer with ZipCode := "" } }
  | .BuyerIp => { r with Buyer := { r.Buyer with Ip := "" } }
  | .ShippingAddress => { r with ShippingAddress := { r.ShippingAddress with Address := "" } }
  | .ShippingZipCode => { r with ShippingAddress := { r.ShippingAddress with ZipCode := "" } }
  | .ShippingContactName =>
    { r with ShippingAddress := { r.ShippingAddress with ContactName := "" } }
  | .ShippingCity => { r with ShippingAddress := { r.ShippingAddress with City := "" } }
  | .ShippingCountry => { r with ShippingAddress := { r.ShippingAddress with Country := "" } }
  | .BillingAddress => { r with BillingAddress := { r.BillingAddress with Address := "" } }
  | .BillingContactName =>
    { r with BillingAddress := { r.BillingAddress with ContactName := "" } }
  | .BillingCity => { r with BillingAddress := { r.BillingAddress with City := "" } }
  | .BillingCountry => { r with BillingAddress := { r.BillingAddress with Country := "" } }
  | .BasketItems => { r with BasketItems := [] }
  | .Currency => { r with Currency := "" }

/-- Every mandatory field of the request is populated and there is at least one basket item. -/
def FullyPopulated (r : CreatePaymentRequest) : Prop :=
  r.Locale ≠ "" ∧ r.ConversationID ≠ "" ∧ r.Price ≠ "" ∧ r.PaidPrice ≠ "" ∧
  r.Installment ≠ 0 ∧ r.PaymentChannel ≠ "" ∧ r.BasketID ≠ "" ∧ r.PaymentGroup ≠ "" ∧
  r.PaymentCard.CardHolderName ≠ "" ∧ r.PaymentCard.CardNumber ≠ "" ∧
  r.PaymentCard.ExpireYear ≠ "" ∧ r.PaymentCard.ExpireMonth ≠ "" ∧ r.PaymentCard.Cvc ≠ "" ∧
  r.PaymentCard.RegisterCard ≠ 0 ∧
  r.Buyer.Id ≠ "" ∧ r.Buyer.Name ≠ "" ∧ r.Buyer.Surname ≠ "" ∧ r.Buyer.IdentityNumber ≠ "" ∧
  r.Buyer.Email ≠ "" ∧ r.Buyer.GsmNumber ≠ "" ∧ r.Buyer.RegistrationDate ≠ "" ∧
  r.Buyer.LastLoginDate ≠ "" ∧ r.Buyer.RegistrationAddress ≠ "" ∧ r.Buyer.City ≠ "" ∧
  r.Buyer.Country ≠ "" ∧ r.Buyer.ZipCode ≠ "" ∧ r.Buyer.Ip ≠ "" ∧
  r.ShippingAddress.Address ≠ "" ∧ r.ShippingAddress.ZipCode ≠ "" ∧
  r.ShippingAddress.ContactName ≠ "" ∧ r.ShippingAddress.City ≠ "" ∧
  r.ShippingAddress.Country ≠ "" ∧
  r.BillingAddress.Address ≠ "" ∧ r.BillingAddress.ContactName ≠ "" ∧
  r.BillingAddress.City ≠ "" ∧ r.BillingAddress.Country ≠ "" ∧
  r.BasketItems ≠ [] ∧ r.Currency ≠ ""

instance (r : CreatePaymentRequest) : Decidable (FullyPopulated r) := by
  unfold FullyPopulated
  infer_instance

/-- A fully populated CreatePaymentRequest with one basket item. -/
def sampleCreatePayment : CreatePaymentRequest where
  Locale := "tr"
  ConversationID := "123456789"
  Price := "10"
  PaidPrice := "12"
  Installment := 1
  PaymentChannel := "WEB"
  BasketID := "B67832"
  PaymentGroup := "PRODUCT"
  PaymentCard :=
    { CardHolderName := "John Doe", CardNumber := "5528790000000008", ExpireYear := "2030",
      ExpireMonth := "12", Cvc := "123", RegisterCard := 1 }
  Buyer :=
    { Id := "BY789", Name := "John", Surname := "Doe", IdentityNumber := "74300864791",
      Email := "email@email.com", GsmNumber := "+905350000000",
      RegistrationDate := "2013-04-21 15:12:09", LastLoginDate := "2015-10-05 12:43:35",
      RegistrationAddress := "Nidakule", City := "Istanbul", Country := "Turkey",
      ZipCode := "34732", Ip := "85.34.78.112" }
  ShippingAddress :=
    { Address := "Nidakule", ZipCode := "34742", ContactName := "Jane Doe",
      City := "Istanbul", Country := "Turkey" }
  BillingAddress :=
    { Address := "Nidakule", ContactName := "Jane Doe", City := "Istanbul",
      Country := "Turkey" }
  BasketItems :=
    [{ Id := "1", Name := "Book", Category1 := "Media", Category2 := "Books",
       ItemType := "PHYSICAL", Price := "10" }]
  Currency := "TRY"

/-- An InitializeBkmRequest with every field empty and no basket item. -/
def emptyInitializeBkm : InitializeBkmRequest where
  Locale := ""
  ConversationID := ""
  Price := ""
  PaymentChannel := ""
  BasketID := ""
  PaymentGroup := ""
  PaymentCard :=
    { CardHolderName := "", CardNumber := "", ExpireYear := "", ExpireMonth := "", Cvc := "",
      RegisterCard := 0 }
  Buyer :=
    { Id := "", Name := "", Surname := "", IdentityNumber := "", Email := "", GsmNumber := "",
      RegistrationDate := "", LastLoginDate := "", RegistrationAddress := "", City := "",
      Country := "", ZipCode := "", Ip := "" }
  ShippingAddress := { Address := "", ZipCode := "", ContactName := "", City := "", Country := "" }
  BillingAddress := { Address := "", ZipCode := "", ContactName := "", City := "", Country := "" }
  BasketItems := []
  CallbackURL := ""

/-- A valid InitializeBkmRequest with one basket item. -/
def sampleInitializeBkm : InitializeBkmRequest where
  Locale := "tr"
  ConversationID := "123456789"
  Price := "10"
  PaymentChannel := "WEB"
  BasketID := "B67832"
  PaymentGroup := "PRODUCT"
  PaymentCard := sampleCreatePayment.PaymentCard
  Buyer := sampleCreatePayment.Buyer
  ShippingAddress := sampleCreatePayment.ShippingAddress
  BillingAddress := sampleCreatePayment.ShippingAddress
  BasketItems := sampleCreatePayment.BasketItems
  CallbackURL := "https://www.merchant.com/callback"

/-- A basket item whose six fields are all empty. -/
def emptyBasketItem : BasketItem :=
  { Id := "", Name := "", Category1 := "", Category2 := "", ItemType := "", Price := "" }

/-- Two InitializeBkmRequests agree on every field except PaymentChannel and PaymentCard:
they are equal once these two fields are overwritten with fixed values. -/
def SameExceptChannelAndCard (r1 r2 : InitializeBkmRequest) : Prop :=
  { r1 with PaymentChannel := "", PaymentCard := emptyInitializeBkm.PaymentCard }
    = { r2 with PaymentChannel := "", PaymentCard := emptyInitializeBkm.PaymentCard }

instance (r1 r2 : InitializeBkmRequest) : Decidable (SameExceptChannelAndCard r1 r2) := by
  unfold SameExceptChannelAndCard
  infer_instance

/-- Two CreatePaymentRequests agree on every field except the basket-item sequence: they are
equal once the sequence is overwritten with the empty one. -/
def SameExceptBasketItems (r1 r2 : CreatePaymentRequest) : Prop :=
  { r1 with BasketItems := [] } = { r2 with BasketItems := [] }

instance (r1 r2 : CreatePaymentRequest) : Decidable (SameExceptBasketItems r1 r2) := by
  unfold SameExceptBasketItems
  infer_instance

/-- Two InitializeBkmRequests agree on every field except the basket-item sequence. -/
def SameExceptBasketItemsBkm (r1 r2 : InitializeBkmRequest) : Prop :=
  { r1 with BasketItems := [] } = { r2 with BasketItems := [] }

instance (r1 r2 : InitializeBkmRequest) : Decidable (SameExceptBasketItemsBkm r1 r2) := by
  unfold SameExceptBasketItemsBkm
  infer_instance

/-- The number of violated checks in a list of checks. -/
def violatedCount (checks : List (Bool × String)) : Nat :=
  checks.countP (fun c => c.1)

/-- A text of plain decimal digits: not empty, digits only (so no sign), and no leading zero
other than the single digit of zero itself. -/
def PlainDecimal (s : List Char) : Prop :=
  s ≠ [] ∧ (∀ c ∈ s, c.isDigit = true) ∧ (s.head? = some '0' → s = ['0'])

instance (s : List Char) : Decidable (PlainDecimal s) := by
  unfold PlainDecimal
  infer_instance

/-- The number denoted by a text of decimal digits. -/
def decodeDigits (s : List Char) : Nat :=
  s.foldl (fun n c => 10 * n + (c.toNat - 48)) 0

/-- The sample request with a negative Installment and a negative RegisterCard. -/
def negativeCreatePayment : CreatePaymentRequest :=
  { sampleCreatePayment with
      Installment := -2
      PaymentCard := { sampleCreatePayment.PaymentCard with RegisterCard := -1 } }

/-- A string contains none of the characters the canonical grammar uses as delimiters. -/
def delimiterFree (s : String) : Prop :=
  ',' ∉ s.data ∧ '[' ∉ s.data ∧ ']' ∉ s.data

instance (s : String) : Decidable (delimiterFree s) := by
  unfold delimiterFree
  infer_instance

/-- No field of the basket item contains a delimiter. -/
def DelimiterFreeItem (b : BasketItem) : Prop :=
  delimiterFree b.Id ∧ delimiterFree b.Name ∧ delimiterFree b.Category1 ∧
  delimiterFree b.Category2 ∧ delimiterFree b.ItemType ∧ delimiterFree b.Price

instance (b : BasketItem) : Decidable (DelimiterFreeItem b) := by
  unfold DelimiterFreeItem
  infer_instance

/-- No string field of the request (top level, card, buyer, shipping address, billing
address, any basket item) contains a delimiter. -/
def DelimiterFreeRequest (r : CreatePaymentRequest) : Prop :=
  delimiterFree r.Locale ∧ delimiterFree r.ConversationID ∧ delimiterFree r.Price ∧
  delimiterFree r.PaidPrice ∧ delimiterFree r.PaymentChannel ∧ delimiterFree r.BasketID ∧
  delimiterFree r.PaymentGroup ∧
  delimiterFree r.PaymentCard.CardHolderName ∧ delimiterFree r.PaymentCard.CardNumber ∧
  delimiterFree r.PaymentCard.ExpireYear ∧ delimiterFree r.PaymentCard.ExpireMonth ∧
  delimiterFree r.PaymentCard.Cvc ∧
  delimiterFree r.Buyer.Id ∧ delimiterFree r.Buyer.Name ∧ delimiterFree r.Buyer.Surname ∧
  delimiterFree r.Buyer.IdentityNumber ∧ delimiterFree r.Buyer.Email ∧
  delimiterFree r.Buyer.GsmNumber ∧ delimiterFree r.Buyer.RegistrationDate ∧
  delimiterFree r.Buyer.LastLoginDate ∧ delimiterFree r.Buyer.RegistrationAddress ∧
  delimiterFree r.Buyer.City ∧ delimiterFree r.Buyer.Country ∧
  delimiterFree r.Buyer.ZipCode ∧ delimiterFree r.Buyer.Ip ∧
  delimiterFree r.ShippingAddress.Address ∧ delimiterFree r.ShippingAddress.ZipCode ∧
  delimiterFree r.ShippingAddress.ContactName ∧ delimiterFree r.ShippingAddress.City ∧
  delimiterFree r.ShippingAddress.Country ∧
  delimiterFree r.BillingAddress.Address ∧ delimiterFree r.BillingAddress.ContactName ∧
  delimiterFree r.BillingAddress.City ∧ delimiterFree r.BillingAddress.Country ∧
  (∀ b ∈ r.BasketItems, DelimiterFreeItem b) ∧ delimiterFree r.Currency

instance (r : CreatePaymentRequest) : Decidable (DelimiterFreeRequest r) := by
  unfold DelimiterFreeRequest
  infer_instance

/-- A text begins with one of the two characters that end a value: a comma or a closing
bracket. -/
def startsDelim (l : List Char) : Bool :=
  match l with
  | c :: _ => c == ',' || c == ']'
  | [] => false

/-- A sequence of values, each followed by the literal text that comes after it. -/
def renderVL : List (List Char) → List (List Char) → List Char
  | v :: vs, l :: ls => v ++ l ++ renderVL vs ls
  | _, _ => []

/-- The values of a CreatePaymentRequest before its basket items, in canonical order. -/
def headValues (r : CreatePaymentRequest) : List (List Char) :=
  [r.Locale.data, r.ConversationID.data, r.Price.data, r.PaidPrice.data,
   fmtInteger r.Installment, r.PaymentChannel.data, r.BasketID.data, r.PaymentGroup.data,
   r.PaymentCard.CardHolderName.data, r.PaymentCard.CardNumber.data,
   r.PaymentCard.ExpireYear.data, r.PaymentCard.ExpireMonth.data, r.PaymentCard.Cvc.data,
   fmtInteger r.PaymentCard.RegisterCard,
   r.Buyer.Id.data, r.Buyer.Name.data, r.Buyer.Surname.data, r.Buyer.IdentityNumber.data,
   r.Buyer.Email.data, r.Buyer.GsmNumber.data, r.Buyer.RegistrationDate.data,
   r.Buyer.LastLoginDate.data, r.Buyer.RegistrationAddress.data, r.Buyer.City.data,
   r.Buyer.Country.data, r.Buyer.ZipCode.data, r.Buyer.Ip.data,
   r.ShippingAddress.Address.data, r.ShippingAddress.ZipCode.data,
   r.ShippingAddress.ContactName.data, r.ShippingAddress.City.data,
   r.ShippingAddress.Country.data,
   r.BillingAddress.Address.data, r.BillingAddress.ContactName.data,
   r.BillingAddress.City.data, r.BillingAddress.Country.data]

/-- The literal text after each value of `headValues`. -/
def headLiterals : List (List Char) :=
  [",conversationId=".data, ",price=".data, ",paidPrice=".data, ",installment=".data,
   ",paymentChannel=".data, ",basketId=".data, ",paymentGroup=".data,
   ",paymentCard=[cardHolderName=".data,
   ",cardNumber=".data, ",expireYear=".data, ",expireMonth=".data, ",cvc=".data,
   ",registerCard=".data, "],buyer=[id=".data,
   ",name=".data, ",surname=".data, ",identityNumber=".data, ",email=".data,
   ",gsmNumber=".data, ",registrationDate=".data, ",lastLoginDate=".data,
   ",registrationAddress=".data, ",city=".data, ",country=".data, ",zipCode=".data,
   ",ip=".data, "],shippingAddress=[address=".data,
   ",zipCode=".data, ",contactName=".data, ",city=".data, ",country=".data,
   "],billingAddress=[address=".data,
   ",contactName=".data, ",city=".data, ",country=".data, "],basketItems=[".data]

/-- The values of a basket item, in canonical order. -/
def itemValues (b : BasketItem) : List (List Char) :=
  [b.Id.data, b.Price.data, b.Name.data, b.Category1.data, b.Category2.data, b.ItemType.data]

/-- The literal text after each value of `itemValues`. -/
def itemLiterals : List (List Char) :=
  [",price=".data, ",name=".data, ",category1=".data, ",category2=".data,
   ",itemType=".data, "]".data]

/-- The rendering of the basket items after the first one: each preceded by ", ". -/
def restChars : List BasketItem → List Char
  | [] => []
  | b :: bs => ", [id=".data ++ renderVL (itemValues b) itemLiterals ++ restChars bs

/-- The rendering of a sequence of basket items. -/
def itemsChars : List BasketItem → List Char
  | [] => []
  | b :: bs => "[id=".data ++ renderVL (itemValues b) itemLiterals ++ restChars bs

/-- A basket item whose ItemType contains the text that separates two blocks. -/
def forgedBasketItem : BasketItem :=
  { Id := "1", Name := "Book", Category1 := "Media", Category2 := "Books",
    ItemType := "PHYSICAL], [id=1,price=10,name=Book,category1=Media,category2=Books,itemType=PHYSICAL",
    Price := "10" }

/-- The sample basket item. -/
def bookBasketItem : BasketItem :=
  { Id := "1", Name := "Book", Category1 := "Media", Category2 := "Books",
    ItemType := "PHYSICAL", Price := "10" }

/-! ## Lemmas: formatting -/

theorem digitChar_eq (d : Nat) (h : d < 10) : Nat.digitChar d = digitChar d := by
  interval_cases d <;> rfl

theorem fmtDigits_eq_toDigitsCore (fuel : Nat) :
    ∀ (u fuel2 : Nat) (acc : List Char), u ≤ fuel → u ≤ fuel2 →
      fmtDigits fuel u acc = Nat.toDigitsCore 10 (fuel2 + 1) u acc := by
  induction fuel with
  | zero =>
    intro u fuel2 acc hu _
    obtain rfl : u = 0 := by omega
    simp [fmtDigits, Nat.toDigitsCore, digitChar_eq]
  | succ fuel ih =>
    intro u fuel2 acc hu hu2
    by_cases h10 : 10 ≤ u
    · obtain ⟨f2, rfl⟩ : ∃ f2, fuel2 = f2 + 1 := ⟨fuel2 - 1, by omega⟩
      have hne : u / 10 ≠ 0 := by omega
      have hlt : u % 10 < 10 := Nat.mod_lt _ (by decide)
      rw [fmtDigits, if_pos h10, ih (u / 10) f2 _ (by omega) (by omega)]
      conv_rhs => rw [Nat.toDigitsCore]
      simp [hne, digitChar_eq _ hlt]
    · have hlt : u < 10 := by omega
      have hz : u / 10 = 0 := by omega
      have hm : u % 10 = u := Nat.mod_eq_of_lt hlt
      rw [fmtDigits, if_neg h10, Nat.toDigitsCore]
      simp [hz, hm, digitChar_eq _ hlt]

/-- The rendering of `%d` is the usual decimal notation of the integer. -/
theorem fmtInteger_eq_toString (i : Int) : String.mk (fmtInteger i) = toString i := by
  cases i with
  | ofNat n =>
    have : ¬ ((Int.ofNat n) < 0) := by simp
    simp only [fmtInteger, this, if_false]
    change String.mk (fmtDigits n n []) = _
    rw [fmtDigits_eq_toDigitsCore n n n [] le_rfl le_rfl]
    rfl
  | negSucc n =>
    have : (Int.negSucc n) < 0 := Int.negSucc_lt_zero n
    simp only [fmtInteger, this, if_true]
    change String.mk ('-' :: fmtDigits (n + 1) (n + 1) []) = _
    rw [fmtDigits_eq_toDigitsCore (n + 1) (n + 1) (n + 1) [] le_rfl le_rfl]
    rfl

theorem Sprintf_header (apiKey hashInBase64 : String) :
    Sprintf "IYZWS %s:%s" [.str apiKey, .str hashInBase64]
      = "IYZWS " ++ apiKey ++ ":" ++ hashInBase64 := by
  apply String.ext
  simp [Sprintf, doPrintf]

theorem Sprintf_basketItem (item : BasketItem) :
    Sprintf "[id=%s,price=%s,name=%s,category1=%s,category2=%s,itemType=%s]"
        [.str item.Id, .str item.Price, .str item.Name, .str item.Category1,
         .str item.Category2, .str item.ItemType]
      = basketItemBlock item := by
  apply String.ext
  simp [Sprintf, doPrintf, basketItemBlock]

theorem foldl_append_singleton {α β : Type} (f : α → β) (xs : List α) (init : List β) :
    xs.foldl (fun acc x => acc ++ [f x]) init = init ++ xs.map f := by
  induction xs generalizing init with
  | nil => simp
  | cons x xs ih => simp [ih]

theorem Join_eq_intercalate (elems : List String) (sep : String) :
    Join elems sep = sep.intercalate elems := by
  cases elems with
  | nil => rfl
  | cons first rest =>
    simp only [Join, String.intercalate]
    induction rest generalizing first with
    | nil => rfl
    | cons x xs ih => simp only [List.foldl_cons, String.intercalate.go]; exact ih _

theorem FormatBasketItems_eq (items : List BasketItem) :
    FormatBasketItems items = ", ".intercalate (items.map basketItemBlock) := by
  simp only [FormatBasketItems, Sprintf_basketItem]
  rw [foldl_append_singleton basketItemBlock items [], Join_eq_intercalate]
  simp

theorem FormatAddress_eq (a : Address) :
    FormatAddress a = "[address=" ++ a.Address ++ ",zipCode=" ++ a.ZipCode ++ ",contactName="
      ++ a.ContactName ++ ",city=" ++ a.City ++ ",country=" ++ a.Country ++ "]" := by
  apply String.ext
  simp [FormatAddress, Sprintf, doPrintf]

theorem FormatBillingAddress_eq (a : BillingAddress) :
    FormatBillingAddress a = "[address=" ++ a.Address ++ ",contactName=" ++ a.ContactName
      ++ ",city=" ++ a.City ++ ",country=" ++ a.Country ++ "]" := by
  apply String.ext
  simp [FormatBillingAddress, Sprintf, doPrintf]

theorem FormatBuyer_eq (b : Buyer) :
    FormatBuyer b = "[id=" ++ b.Id ++ ",name=" ++ b.Name ++ ",surname=" ++ b.Surname
      ++ ",identityNumber=" ++ b.IdentityNumber ++ ",email=" ++ b.Email ++ ",gsmNumber="
      ++ b.GsmNumber ++ ",registrationDate=" ++ b.RegistrationDate ++ ",lastLoginDate="
      ++ b.LastLoginDate ++ ",registrationAddress=" ++ b.RegistrationAddress ++ ",city="
      ++ b.City ++ ",country=" ++ b.Country ++ ",zipCode=" ++ b.ZipCode ++ ",ip=" ++ b.Ip
      ++ "]" := by
  apply String.ext
  simp [FormatBuyer, Sprintf, doPrintf]

theorem FormatPaymentCard_eq (c : PaymentCard) :
    FormatPaymentCard c = "[cardHolderName=" ++ c.CardHolderName ++ ",cardNumber="
      ++ c.CardNumber ++ ",expireYear=" ++ c.ExpireYear ++ ",expireMonth=" ++ c.ExpireMonth
      ++ ",cvc=" ++ c.Cvc ++ ",registerCard=" ++ toString c.RegisterCard ++ "]" := by
  rw [← fmtInteger_eq_toString]
  apply String.ext
  simp [FormatPaymentCard, Sprintf, doPrintf]

theorem FormatCreatePayment_eq (r : CreatePaymentRequest) :
    FormatCreatePayment r = "[locale=" ++ r.Locale ++ ",conversationId=" ++ r.ConversationID
      ++ ",price=" ++ r.Price ++ ",paidPrice=" ++ r.PaidPrice ++ ",installment="
      ++ toString r.Installment ++ ",paymentChannel=" ++ r.PaymentChannel ++ ",basketId="
      ++ r.BasketID ++ ",paymentGroup=" ++ r.PaymentGroup ++ ",paymentCard="
      ++ FormatPaymentCard r.PaymentCard ++ ",buyer=" ++ FormatBuyer r.Buyer
      ++ ",shippingAddress=" ++ FormatAddress r.ShippingAddress ++ ",billingAddress="
      ++ FormatBillingAddress r.BillingAddress ++ ",basketItems=["
      ++ FormatBasketItems r.BasketItems ++ "],currency=" ++ r.Currency ++ "]" := by
  rw [← fmtInteger_eq_toString]
  apply String.ext
  simp [FormatCreatePayment, WriteString, Sprintf, doPrintf]

theorem FormatInitializeBkm_eq (r : InitializeBkmRequest) :
    FormatInitializeBkm r = "[locale=" ++ r.Locale ++ ",conversationId=" ++ r.ConversationID
      ++ ",price=" ++ r.Price ++ ",basketId=" ++ r.BasketID ++ ",paymentGroup="
      ++ r.PaymentGroup ++ ",buyer=" ++ FormatBuyer r.Buyer ++ ",shippingAddress="
      ++ FormatAddress r.ShippingAddress ++ ",billingAddress="
      ++ FormatAddress r.BillingAddress ++ ",basketItems=["
      ++ FormatBasketItems r.BasketItems ++ "],callbackUrl=" ++ r.CallbackURL ++ "]" := by
  apply String.ext
  simp [FormatInitializeBkm, WriteString, Sprintf, doPrintf]

theorem FormatCreatePayment_ne_empty (r : CreatePaymentRequest) : FormatCreatePayment r ≠ "" := by
  intro h
  have := congrArg String.length h
  rw [FormatCreatePayment_eq] at this
  simp only [String.length_append] at this
  have h1 : "]".length = 1 := by decide
  have h0 : "".length = 0 := by decide
  omega

theorem FormatInitializeBkm_ne_empty (r : InitializeBkmRequest) :
    FormatInitializeBkm r ≠ "" := by
  intro h
  have := congrArg String.length h
  rw [FormatInitializeBkm_eq] at this
  simp only [String.length_append] at this
  have h1 : "]".length = 1 := by decide
  have h0 : "".length = 0 := by decide
  omega

/-! ## Lemmas: validation -/

theorem firstViolated_append (l1 l2 : List (Bool × String)) :
    firstViolated (l1 ++ l2)
      = match firstViolated l1 with
        | some err => some err
        | none => firstViolated l2 := by
  induction l1 with
  | nil => rfl
  | cons c rest ih =>
    obtain ⟨v, e⟩ := c
    cases v <;> simp [firstViolated, ih]

theorem firstViolated_eq_none_iff (l : List (Bool × String)) :
    firstViolated l = none ↔ ∀ c ∈ l, c.1 = false := by
  induction l with
  | nil => simp [firstViolated]
  | cons c rest ih =>
    obtain ⟨v, e⟩ := c
    cases v <;> simp [firstViolated, ih]

theorem firstViolated_split (pre post : List (Bool × String)) (c : Bool × String)
    (hpre : ∀ p ∈ pre, p.1 = false) (hc : c.1 = true) :
    firstViolated (pre ++ c :: post) = some c.2 := by
  rw [firstViolated_append, (firstViolated_eq_none_iff pre).2 hpre]
  obtain ⟨v, e⟩ := c
  simp only at hc
  simp [firstViolated, hc]

theorem firstViolated_nil : firstViolated [] = none := rfl

theorem firstViolated_cons_decide (p : Prop) [Decidable p] (err : String)
    (rest : List (Bool × String)) :
    firstViolated ((decide p, err) :: rest) = if p then some err else firstViolated rest := by
  simp [firstViolated]

theorem ValidatePaymentCard_eq (c : PaymentCard) :
    ValidatePaymentCard c = firstViolated (cardChecks c) := by
  simp only [ValidatePaymentCard, cardChecks, firstViolated_cons_decide, firstViolated_nil]

theorem ValidateBuyer_eq (b : Buyer) : ValidateBuyer b = firstViolated (buyerChecks b) := by
  simp only [ValidateBuyer, buyerChecks, firstViolated_cons_decide, firstViolated_nil]

theorem ValidateAddress_eq (a : Address) :
    ValidateAddress a = firstViolated (addressChecks a) := by
  simp only [ValidateAddress, addressChecks, firstViolated_cons_decide, firstViolated_nil]

theorem ValidateBillingAddress_eq (a : BillingAddress) :
    ValidateBillingAddress a = firstViolated (billingAddressChecks a) := by
  simp only [ValidateBillingAddress, billingAddressChecks, firstViolated_cons_decide,
    firstViolated_nil]

theorem ValidateCreatePaymentRequest_eq (r : CreatePaymentRequest) :
    ValidateCreatePaymentRequest r = firstViolated (createPaymentChecks r) := by
  simp only [createPaymentChecks, List.append_assoc, List.cons_append, List.nil_append,
    firstViolated_cons_decide, firstViolated_append, firstViolated_nil,
    ← ValidatePaymentCard_eq, ← ValidateBuyer_eq, ← ValidateAddress_eq,
    ← ValidateBillingAddress_eq]
  simp only [ValidateCreatePaymentRequest, List.length_eq_zero]

theorem ValidateInitializeBkmRequest_eq (r : InitializeBkmRequest) :
    ValidateInitializeBkmRequest r = firstViolated (initializeBkmChecks r) := by
  simp only [initializeBkmChecks, List.append_assoc, List.cons_append, List.nil_append,
    firstViolated_cons_decide, firstViolated_append, firstViolated_nil,
    ← ValidatePaymentCard_eq, ← ValidateBuyer_eq, ← ValidateAddress_eq]
  simp only [ValidateInitializeBkmRequest, List.length_eq_zero]

theorem ValidateCreatePaymentRequest_of_populated (r : CreatePaymentRequest)
    (h : FullyPopulated r) : ValidateCreatePaymentRequest r = none := by
  obtain ⟨h1, h2, h3, h4, h5, h6, h7, h8, c1, c2, c3, c4, c5, c6, b1, b2, b3, b4, b5, b6, b7,
    b8, b9, b10, b11, b12, b13, s1, s2, s3, s4, s5, a1, a2, a3, a4, hb, hc⟩ := h
  simp [ValidateCreatePaymentRequest, ValidatePaymentCard, ValidateBuyer, ValidateAddress,
    ValidateBillingAddress, *]

theorem ValidateCreatePaymentRequest_clearField (r : CreatePaymentRequest)
    (h : FullyPopulated r) (f : MandatoryField) :
    ValidateCreatePaymentRequest (clearField f r)
      = some (f.fieldName ++ (if f.isInteger then " is zero" else " is empty")) := by
  obtain ⟨h1, h2, h3, h4, h5, h6, h7, h8, c1, c2, c3, c4, c5, c6, b1, b2, b3, b4, b5, b6, b7,
    b8, b9, b10, b11, b12, b13, s1, s2, s3, s4, s5, a1, a2, a3, a4, hb, hc⟩ := h
  cases f <;>
    simp [clearField, MandatoryField.fieldName, MandatoryField.isInteger,
      ValidateCreatePaymentRequest, ValidatePaymentCard, ValidateBuyer, ValidateAddress,
      ValidateBillingAddress, *]

theorem intercalate_go_append (s a b : String) (rest : List String) :
    String.intercalate.go (a ++ b) s rest = a ++ String.intercalate.go b s rest := by
  induction rest generalizing b with
  | nil => rfl
  | cons x xs ih =>
    simp only [String.intercalate.go]
    rw [String.append_assoc a b s, String.append_assoc a (b ++ s) x, ih]

theorem intercalate_cons_cons (s x y : String) (rest : List String) :
    s.intercalate (x :: y :: rest) = x ++ s ++ s.intercalate (y :: rest) := by
  simp only [String.intercalate, String.intercalate.go]
  exact intercalate_go_append s (x ++ s) y rest

/-- The FIPS 180 test vector: the SHA-1 digest of "abc". -/
theorem sha1Sum_abc :
    sha1Sum (stringBytes "abc")
      = [0xa9, 0x99, 0x3e, 0x36, 0x47, 0x06, 0x81, 0x6a, 0xba, 0x3e,
         0x25, 0x71, 0x78, 0x50, 0xc2, 0x6c, 0x9c, 0xd0, 0xd8, 0x9d] := by
  decide

/-! ## The signer -/

/-- C1: for non-empty apiKey, rnd, secretKey and requestString, GetAuthorizationAndPkiString
succeeds (nil error) with pkiString = apiKey ++ rnd ++ secretKey ++ requestString and
authorization = "IYZWS " ++ apiKey ++ ":" ++ base64 of the SHA-1 digest of the bytes of
pkiString; for the known vector the pkiString is "key1123456789secret1[locale=tr]" and the
header is "IYZWS key1:" followed by the base64 of the SHA-1 of that pkiString. -/
theorem GetAuthorizationAndPkiString_signs (apiKey rnd secretKey requestString : String)
    (hApiKey : apiKey ≠ "") (hRnd : rnd ≠ "") (hSecretKey : secretKey ≠ "")
    (hRequest : requestString ≠ "") :
    GetAuthorizationAndPkiString apiKey rnd secretKey requestString
        = ("IYZWS " ++ apiKey ++ ":"
            ++ EncodeToString (sha1Sum (stringBytes (apiKey ++ rnd ++ secretKey ++ requestString))),
           apiKey ++ rnd ++ secretKey ++ requestString, none)
      ∧ GetAuthorizationAndPkiString "key1" "123456789" "secret1" "[locale=tr]"
        = ("IYZWS key1:"
            ++ EncodeToString (sha1Sum (stringBytes "key1123456789secret1[locale=tr]")),
           "key1123456789secret1[locale=tr]", none) := by
  constructor
  · simp [GetAuthorizationAndPkiString, hApiKey, hRnd, hSecretKey, hRequest, Sprintf_header]
  · decide

/-- The known vector of C1, with the digest evaluated: the header is
"IYZWS key1:6Fv40hElxFhmLUwwlV6jb7jH2tM=". -/
theorem GetAuthorizationAndPkiString_signs_witness :
    "key1" ≠ "" ∧ "123456789" ≠ "" ∧ "secret1" ≠ "" ∧ "[locale=tr]" ≠ "" ∧
    GetAuthorizationAndPkiString "key1" "123456789" "secret1" "[locale=tr]"
      = ("IYZWS key1:6Fv40hElxFhmLUwwlV6jb7jH2tM=", "key1123456789secret1[locale=tr]", none) :=
  ⟨by decide, by decide, by decide, by decide,
    (GetAuthorizationAndPkiString_signs "key1" "123456789" "secret1" "[locale=tr]"
      (by decide) (by decide) (by decide) (by decide)).1.trans (by decide)⟩

/-! ## Canonical strings -/

/-- C2: FormatCreatePayment fills the Payment template in order, the installment in decimal
notation and the composites inlined; the billing address has the four keys address,
contactName, city, country and the shipping address the five keys address, zipCode,
contactName, city, country. -/
theorem FormatCreatePayment_template (r : CreatePaymentRequest) :
    FormatCreatePayment r
        = "[locale=" ++ r.Locale ++ ",conversationId=" ++ r.ConversationID ++ ",price="
          ++ r.Price ++ ",paidPrice=" ++ r.PaidPrice ++ ",installment="
          ++ toString r.Installment ++ ",paymentChannel=" ++ r.PaymentChannel ++ ",basketId="
          ++ r.BasketID ++ ",paymentGroup=" ++ r.PaymentGroup ++ ",paymentCard="
          ++ FormatPaymentCard r.PaymentCard ++ ",buyer=" ++ FormatBuyer r.Buyer
          ++ ",shippingAddress=" ++ FormatAddress r.ShippingAddress ++ ",billingAddress="
          ++ FormatBillingAddress r.BillingAddress ++ ",basketItems=["
          ++ FormatBasketItems r.BasketItems ++ "],currency=" ++ r.Currency ++ "]"
      ∧ FormatBillingAddress r.BillingAddress
        = "[address=" ++ r.BillingAddress.Address ++ ",contactName="
          ++ r.BillingAddress.ContactName ++ ",city=" ++ r.BillingAddress.City ++ ",country="
          ++ r.BillingAddress.Country ++ "]"
      ∧ FormatAddress r.ShippingAddress
        = "[address=" ++ r.ShippingAddress.Address ++ ",zipCode=" ++ r.ShippingAddress.ZipCode
          ++ ",contactName=" ++ r.ShippingAddress.ContactName ++ ",city="
          ++ r.ShippingAddress.City ++ ",country=" ++ r.ShippingAddress.Country ++ "]" :=
  ⟨FormatCreatePayment_eq r, FormatBillingAddress_eq _, FormatAddress_eq _⟩

/-- C3: FormatInitializeBkm fills the BKM template in order (no paymentChannel, no
paymentCard, both addresses by FormatAddress), and the buyer is rendered as its 13 keys in
the order id, name, surname, identityNumber, email, gsmNumber, registrationDate,
lastLoginDate, registrationAddress, city, country, zipCode, ip. -/
theorem FormatInitializeBkm_template (r : InitializeBkmRequest) :
    FormatInitializeBkm r
        = "[locale=" ++ r.Locale ++ ",conversationId=" ++ r.ConversationID ++ ",price="
          ++ r.Price ++ ",basketId=" ++ r.BasketID ++ ",paymentGroup=" ++ r.PaymentGroup
          ++ ",buyer=" ++ FormatBuyer r.Buyer ++ ",shippingAddress="
          ++ FormatAddress r.ShippingAddress ++ ",billingAddress="
          ++ FormatAddress r.BillingAddress ++ ",basketItems=["
          ++ FormatBasketItems r.BasketItems ++ "],callbackUrl=" ++ r.CallbackURL ++ "]"
      ∧ FormatBuyer r.Buyer
        = "[id=" ++ r.Buyer.Id ++ ",name=" ++ r.Buyer.Name ++ ",surname=" ++ r.Buyer.Surname
          ++ ",identityNumber=" ++ r.Buyer.IdentityNumber ++ ",email=" ++ r.Buyer.Email
          ++ ",gsmNumber=" ++ r.Buyer.GsmNumber ++ ",registrationDate="
          ++ r.Buyer.RegistrationDate ++ ",lastLoginDate=" ++ r.Buyer.LastLoginDate
          ++ ",registrationAddress=" ++ r.Buyer.RegistrationAddress ++ ",city="
          ++ r.Buyer.City ++ ",country=" ++ r.Buyer.Country ++ ",zipCode=" ++ r.Buyer.ZipCode
          ++ ",ip=" ++ r.Buyer.Ip ++ "]" :=
  ⟨FormatInitializeBkm_eq r, FormatBuyer_eq _⟩

/-- C4: FormatBasketItems returns the blocks
"[id=..,price=..,name=..,category1=..,category2=..,itemType=..]" of the items, in order,
joined by ", ": the empty string for no item, the block alone for one item, and for more
items the first block, ", ", and the rendering of the others; the item of the specification
renders as "[id=1,price=10,name=Book,category1=Media,category2=Books,itemType=PHYSICAL]". -/
theorem FormatBasketItems_joined (items : List BasketItem) :
    FormatBasketItems items
        = ", ".intercalate (items.map fun item =>
            "[id=" ++ item.Id ++ ",price=" ++ item.Price ++ ",name=" ++ item.Name
              ++ ",category1=" ++ item.Category1 ++ ",category2=" ++ item.Category2
              ++ ",itemType=" ++ item.ItemType ++ "]")
      ∧ FormatBasketItems [] = ""
      ∧ (∀ x : BasketItem, FormatBasketItems [x]
          = "[id=" ++ x.Id ++ ",price=" ++ x.Price ++ ",name=" ++ x.Name ++ ",category1="
            ++ x.Category1 ++ ",category2=" ++ x.Category2 ++ ",itemType=" ++ x.ItemType
            ++ "]")
      ∧ (∀ (x y : BasketItem) (rest : List BasketItem), FormatBasketItems (x :: y :: rest)
          = "[id=" ++ x.Id ++ ",price=" ++ x.Price ++ ",name=" ++ x.Name ++ ",category1="
            ++ x.Category1 ++ ",category2=" ++ x.Category2 ++ ",itemType=" ++ x.ItemType
            ++ "]" ++ ", " ++ FormatBasketItems (y :: rest))
      ∧ FormatBasketItems
          [{ Id := "1", Name := "Book", Category1 := "Media", Category2 := "Books",
             ItemType := "PHYSICAL", Price := "10" }]
        = "[id=1,price=10,name=Book,category1=Media,category2=Books,itemType=PHYSICAL]" := by
  refine ⟨FormatBasketItems_eq items, by decide, ?_, ?_, by decide⟩
  · intro x
    rw [FormatBasketItems_eq]
    rfl
  · intro x y rest
    rw [FormatBasketItems_eq, FormatBasketItems_eq, List.map_cons, List.map_cons,
      intercalate_cons_cons]
    rfl

/-! ## Orchestration and validation -/

/-- C5: for a CreatePaymentRequest that passes validation and non-empty apiKey, secretKey and
nonce, GenerateAuthorizationAndPkiStringForCreatePayment succeeds (nil error) with a header
that begins with "IYZWS " and the pkiString apiKey ++ nonce ++ secretKey ++
FormatCreatePayment r. -/
theorem GenerateAuthorizationAndPkiStringForCreatePayment_valid
    (apiKey secretKey nonce : String) (r : CreatePaymentRequest)
    (hApiKey : apiKey ≠ "") (hSecretKey : secretKey ≠ "") (hNonce : nonce ≠ "")
    (hValid : ValidateCreatePaymentRequest r = none) :
    GenerateAuthorizationAndPkiStringForCreatePayment apiKey secretKey r nonce
      = ("IYZWS " ++ (apiKey ++ ":" ++ EncodeToString (sha1Sum (stringBytes
            (apiKey ++ nonce ++ secretKey ++ FormatCreatePayment r)))),
         apiKey ++ nonce ++ secretKey ++ FormatCreatePayment r, none) := by
  simp [GenerateAuthorizationAndPkiStringForCreatePayment, GetAuthorizationAndPkiString,
    hApiKey, hSecretKey, hNonce, hValid, FormatCreatePayment_ne_empty, Sprintf_header,
    String.append_assoc]

/-- The end-to-end case of C5 on a fully populated request with one basket item. -/
theorem GenerateAuthorizationAndPkiStringForCreatePayment_valid_witness :
    "apiKey" ≠ "" ∧ "secretKey" ≠ "" ∧ "123456789" ≠ "" ∧
    ValidateCreatePaymentRequest sampleCreatePayment = none ∧
    GenerateAuthorizationAndPkiStringForCreatePayment "apiKey" "secretKey"
        sampleCreatePayment "123456789"
      = ("IYZWS " ++ ("apiKey" ++ ":" ++ EncodeToString (sha1Sum (stringBytes
            ("apiKey" ++ "123456789" ++ "secretKey" ++ FormatCreatePayment sampleCreatePayment)))),
         "apiKey" ++ "123456789" ++ "secretKey" ++ FormatCreatePayment sampleCreatePayment,
         none) :=
  ⟨by decide, by decide, by decide, by decide,
    GenerateAuthorizationAndPkiStringForCreatePayment_valid "apiKey" "secretKey" "123456789"
      sampleCreatePayment (by decide) (by decide) (by decide) (by decide)⟩

/-- C6: ValidateCreatePaymentRequest returns the error of the first violated check of the
depth-first list (Locale, ConversationID, Price, PaidPrice, Installment, PaymentChannel,
BasketID, PaymentGroup, the 6 card checks, the 13 buyer checks, the 5 shipping-address
checks, the 4 billing-address checks without zip code, BasketItems, Currency): whenever the
list splits into checks that all pass, a violated check and any further checks, the error is
that of the violated check, whatever the further checks say; and it returns nil exactly when
no check is violated. -/
theorem ValidateCreatePaymentRequest_first_violated (r : CreatePaymentRequest) :
    ValidateCreatePaymentRequest r = firstViolated (createPaymentChecks r)
      ∧ (∀ (pre post : List (Bool × String)) (c : Bool × String),
          createPaymentChecks r = pre ++ c :: post → (∀ p ∈ pre, p.1 = false) → c.1 = true →
          ValidateCreatePaymentRequest r = some c.2)
      ∧ (ValidateCreatePaymentRequest r = none ↔ ∀ c ∈ createPaymentChecks r, c.1 = false) := by
  refine ⟨ValidateCreatePaymentRequest_eq r, ?_, ?_⟩
  · intro pre post c hsplit hpre hc
    rw [ValidateCreatePaymentRequest_eq, hsplit]
    exact firstViolated_split pre post c hpre hc
  · rw [ValidateCreatePaymentRequest_eq]
    exact firstViolated_eq_none_iff _

/-- C7: ValidateInitializeBkmRequest returns the error of the first violated check of the
depth-first list (Locale, ConversationID, Price, PaymentChannel, BasketID, PaymentGroup, the
6 card checks, the 13 buyer checks, the 5 Address checks on the shipping address, the same
5 Address checks on the billing address, BasketItems, CallbackURL), whatever the later
checks say; it returns nil exactly when no check is violated; in particular a request with
an empty billing ZipCode is rejected. -/
theorem ValidateInitializeBkmRequest_first_violated (r : InitializeBkmRequest) :
    ValidateInitializeBkmRequest r = firstViolated (initializeBkmChecks r)
      ∧ (∀ (pre post : List (Bool × String)) (c : Bool × String),
          initializeBkmChecks r = pre ++ c :: post → (∀ p ∈ pre, p.1 = false) → c.1 = true →
          ValidateInitializeBkmRequest r = some c.2)
      ∧ (ValidateInitializeBkmRequest r = none ↔ ∀ c ∈ initializeBkmChecks r, c.1 = false)
      ∧ (r.BillingAddress.ZipCode = "" → ValidateInitializeBkmRequest r ≠ none) := by
  refine ⟨ValidateInitializeBkmRequest_eq r, ?_, ?_, ?_⟩
  · intro pre post c hsplit hpre hc
    rw [ValidateInitializeBkmRequest_eq, hsplit]
    exact firstViolated_split pre post c hpre hc
  · rw [ValidateInitializeBkmRequest_eq]
    exact firstViolated_eq_none_iff _
  · intro hzip hnone
    rw [ValidateInitializeBkmRequest_eq, firstViolated_eq_none_iff] at hnone
    have := hnone (decide (r.BillingAddress.ZipCode = ""), "ZipCode is empty")
      (by simp [initializeBkmChecks, addressChecks])
    simp [hzip] at this

/-- C8: a CreatePaymentRequest with every mandatory field populated and at least one basket
item passes validation, and clearing any single mandatory field of it (a string to "", an
integer to 0, the basket items to the empty sequence) makes validation fail with the message
"<FieldName> is zero" for an integer field and "<FieldName> is empty" otherwise. -/
theorem ValidateCreatePaymentRequest_populated_and_cleared (r : CreatePaymentRequest)
    (hPopulated : FullyPopulated r) :
    ValidateCreatePaymentRequest r = none
      ∧ ∀ f : MandatoryField, ValidateCreatePaymentRequest (clearField f r)
          = some (f.fieldName ++ (if f.isInteger then " is zero" else " is empty")) :=
  ⟨ValidateCreatePaymentRequest_of_populated r hPopulated,
   ValidateCreatePaymentRequest_clearField r hPopulated⟩

/-- The sample request is fully populated, so C8 applies to it. -/
theorem ValidateCreatePaymentRequest_populated_and_cleared_witness :
    FullyPopulated sampleCreatePayment ∧
    ValidateCreatePaymentRequest sampleCreatePayment = none ∧
    ∀ f : MandatoryField, ValidateCreatePaymentRequest (clearField f sampleCreatePayment)
      = some (f.fieldName ++ (if f.isInteger then " is zero" else " is empty")) :=
  ⟨by decide, ValidateCreatePaymentRequest_populated_and_cleared sampleCreatePayment (by decide)⟩

/-- C9: when apiKey, secretKey or nonce is empty, both orchestrators fail with the error
"apiKey, secretKey, or rnd is empty" and empty strings, whatever the request (so never with
a validation error). -/
theorem Generate_empty_credentials (apiKey secretKey nonce : String)
    (bkm : InitializeBkmRequest) (payment : CreatePaymentRequest)
    (hEmpty : apiKey = "" ∨ secretKey = "" ∨ nonce = "") :
    GenerateAuthorizationAndPkiString apiKey secretKey bkm nonce
        = ("", "", some "apiKey, secretKey, or rnd is empty")
      ∧ GenerateAuthorizationAndPkiStringForCreatePayment apiKey secretKey payment nonce
        = ("", "", some "apiKey, secretKey, or rnd is empty") := by
  simp [GenerateAuthorizationAndPkiString, GenerateAuthorizationAndPkiStringForCreatePayment,
    hEmpty]

/-- An empty secret key with two requests that fail validation: the error is the one of the
credentials. -/
theorem Generate_empty_credentials_witness :
    ("apiKey" = "" ∨ "" = "" ∨ "123456789" = "") ∧
    ValidateInitializeBkmRequest emptyInitializeBkm = some "Locale is empty" ∧
    ValidateCreatePaymentRequest (clearField .Currency sampleCreatePayment)
      = some "Currency is empty" ∧
    GenerateAuthorizationAndPkiString "apiKey" "" emptyInitializeBkm "123456789"
      = ("", "", some "apiKey, secretKey, or rnd is empty") ∧
    GenerateAuthorizationAndPkiStringForCreatePayment "apiKey" ""
        (clearField .Currency sampleCreatePayment) "123456789"
      = ("", "", some "apiKey, secretKey, or rnd is empty") :=
  ⟨by decide, by decide, by decide,
    Generate_empty_credentials "apiKey" "" "123456789" emptyInitializeBkm
      (clearField .Currency sampleCreatePayment) (by decide)⟩

/-- C10: with non-empty credentials, a CreatePaymentRequest on which validation fails with
error e makes GenerateAuthorizationAndPkiStringForCreatePayment return exactly e, with an
empty header and an empty pkiString; in particular a request whose only violation is an
empty Currency fails with "Currency is empty". -/
theorem GenerateAuthorizationAndPkiStringForCreatePayment_invalid
    (apiKey secretKey nonce : String) (r : CreatePaymentRequest) (e : String)
    (hApiKey : apiKey ≠ "") (hSecretKey : secretKey ≠ "") (hNonce : nonce ≠ "")
    (hInvalid : ValidateCreatePaymentRequest r = some e) :
    GenerateAuthorizationAndPkiStringForCreatePayment apiKey secretKey r nonce
        = ("", "", some e)
      ∧ ∀ r2 : CreatePaymentRequest, FullyPopulated r2 →
          GenerateAuthorizationAndPkiStringForCreatePayment apiKey secretKey
              (clearField .Currency r2) nonce
            = ("", "", some "Currency is empty") := by
  constructor
  · simp [GenerateAuthorizationAndPkiStringForCreatePayment, hApiKey, hSecretKey, hNonce,
      hInvalid]
  · intro r2 h2
    have hv := ValidateCreatePaymentRequest_clearField r2 h2 .Currency
    have hmsg : MandatoryField.fieldName .Currency
        ++ (if MandatoryField.isInteger .Currency then " is zero" else " is empty")
        = "Currency is empty" := by decide
    rw [hmsg] at hv
    simp [GenerateAuthorizationAndPkiStringForCreatePayment, hApiKey, hSecretKey, hNonce, hv]

/-- The sample request with its Currency cleared: the orchestrator returns the validation
error and nothing else. -/
theorem GenerateAuthorizationAndPkiStringForCreatePayment_invalid_witness :
    "apiKey" ≠ "" ∧ "secretKey" ≠ "" ∧ "123456789" ≠ "" ∧
    ValidateCreatePaymentRequest (clearField .Currency sampleCreatePayment)
      = some "Currency is empty" ∧
    GenerateAuthorizationAndPkiStringForCreatePayment "apiKey" "secretKey"
        (clearField .Currency sampleCreatePayment) "123456789"
      = ("", "", some "Currency is empty") :=
  ⟨by decide, by decide, by decide, by decide,
    (GenerateAuthorizationAndPkiStringForCreatePayment_invalid "apiKey" "secretKey"
      "123456789" (clearField .Currency sampleCreatePayment) "Currency is empty"
      (by decide) (by decide) (by decide) (by decide)).1⟩

/-! ## Lemmas: error messages of the validators -/

theorem firstViolated_mem (l : List (Bool × String)) (e : String)
    (h : firstViolated l = some e) : ∃ c ∈ l, c.2 = e := by
  induction l with
  | nil => simp [firstViolated] at h
  | cons c rest ih =>
    obtain ⟨v, err⟩ := c
    cases v with
    | true =>
      simp [firstViolated] at h
      exact ⟨(true, err), by simp, h⟩
    | false =>
      simp [firstViolated] at h
      obtain ⟨c, hc, hce⟩ := ih h
      exact ⟨c, by simp [hc], hce⟩

theorem createPaymentChecks_ne_signer (r : CreatePaymentRequest) :
    ∀ c ∈ createPaymentChecks r, c.2 ≠ "apiKey, rnd, secretKey, or requestString is empty" := by
  intro c hc
  simp only [createPaymentChecks, cardChecks, buyerChecks, addressChecks,
    billingAddressChecks, List.cons_append, List.nil_append, List.mem_cons,
    List.mem_singleton, List.not_mem_nil, or_false] at hc
  rcases hc with h | h | h | h | h | h | h | h | h | h | h | h | h | h | h | h | h | h | h | h
    | h | h | h | h | h | h | h | h | h | h | h | h | h | h | h | h | h | h <;>
    (rw [h]; dsimp only; decide)

theorem initializeBkmChecks_ne_signer (r : InitializeBkmRequest) :
    ∀ c ∈ initializeBkmChecks r, c.2 ≠ "apiKey, rnd, secretKey, or requestString is empty" := by
  intro c hc
  simp only [initializeBkmChecks, cardChecks, buyerChecks, addressChecks,
    List.cons_append, List.nil_append, List.mem_cons,
    List.mem_singleton, List.not_mem_nil, or_false] at hc
  rcases hc with h | h | h | h | h | h | h | h | h | h | h | h | h | h | h | h | h | h | h | h
    | h | h | h | h | h | h | h | h | h | h | h | h | h | h | h | h | h <;>
    (rw [h]; dsimp only; decide)

/-! ## The signer guard, the BKM string and the basket items -/

/-- C11: GetAuthorizationAndPkiString fails exactly when one of its four inputs is the empty
string, and a failure is always the triple of an empty header, an empty pkiString and the
error "apiKey, rnd, secretKey, or requestString is empty", whichever input is empty. -/
theorem GetAuthorizationAndPkiString_fails_iff (apiKey rnd secretKey requestString : String) :
    ((GetAuthorizationAndPkiString apiKey rnd secretKey requestString).2.2 ≠ none
        ↔ (apiKey = "" ∨ rnd = "" ∨ secretKey = "" ∨ requestString = ""))
      ∧ ((GetAuthorizationAndPkiString apiKey rnd secretKey requestString).2.2 ≠ none →
          GetAuthorizationAndPkiString apiKey rnd secretKey requestString
            = ("", "", some "apiKey, rnd, secretKey, or requestString is empty")) := by
  by_cases h : apiKey = "" ∨ rnd = "" ∨ secretKey = "" ∨ requestString = ""
  · simp [GetAuthorizationAndPkiString, h]
  · simp [GetAuthorizationAndPkiString, h]

/-- C12: two InitializeBkmRequests that agree on every field except PaymentChannel and
PaymentCard have the same canonical string, although validation depends on both fields: a
request passes it only with a non-empty PaymentChannel and a valid PaymentCard. -/
theorem FormatInitializeBkm_ignores_channel_and_card (r1 r2 : InitializeBkmRequest)
    (hSame : SameExceptChannelAndCard r1 r2) :
    FormatInitializeBkm r1 = FormatInitializeBkm r2
      ∧ (ValidateInitializeBkmRequest r1 = none →
          r1.PaymentChannel ≠ "" ∧ ValidatePaymentCard r1.PaymentCard = none) := by
  constructor
  · unfold SameExceptChannelAndCard at hSame
    have h1 := congrArg InitializeBkmRequest.Locale hSame
    have h2 := congrArg InitializeBkmRequest.ConversationID hSame
    have h3 := congrArg InitializeBkmRequest.Price hSame
    have h4 := congrArg InitializeBkmRequest.BasketID hSame
    have h5 := congrArg InitializeBkmRequest.PaymentGroup hSame
    have h6 := congrArg InitializeBkmRequest.Buyer hSame
    have h7 := congrArg InitializeBkmRequest.ShippingAddress hSame
    have h8 := congrArg InitializeBkmRequest.BillingAddress hSame
    have h9 := congrArg InitializeBkmRequest.BasketItems hSame
    have h10 := congrArg InitializeBkmRequest.CallbackURL hSame
    simp only at h1 h2 h3 h4 h5 h6 h7 h8 h9 h10
    rw [FormatInitializeBkm_eq, FormatInitializeBkm_eq, h1, h2, h3, h4, h5, h6, h7, h8, h9, h10]
  · intro hv
    rw [ValidateInitializeBkmRequest_eq, firstViolated_eq_none_iff] at hv
    constructor
    · have := hv (decide (r1.PaymentChannel = ""), "PaymentChannel is empty")
        (by simp [initializeBkmChecks])
      simpa using this
    · rw [ValidatePaymentCard_eq, firstViolated_eq_none_iff]
      intro c hc
      exact hv c (by simp [initializeBkmChecks, hc])

/-- Two valid-looking requests that differ in PaymentChannel and PaymentCard only: same
canonical string, though the second one fails validation. -/
theorem FormatInitializeBkm_ignores_channel_and_card_witness :
    SameExceptChannelAndCard sampleInitializeBkm
        { sampleInitializeBkm with
            PaymentChannel := "", PaymentCard := emptyInitializeBkm.PaymentCard } ∧
    ValidateInitializeBkmRequest
        { sampleInitializeBkm with
            PaymentChannel := "", PaymentCard := emptyInitializeBkm.PaymentCard }
      = some "PaymentChannel is empty" ∧
    (FormatInitializeBkm sampleInitializeBkm
        = FormatInitializeBkm
            { sampleInitializeBkm with
                PaymentChannel := "", PaymentCard := emptyInitializeBkm.PaymentCard }
      ∧ (ValidateInitializeBkmRequest sampleInitializeBkm = none →
          sampleInitializeBkm.PaymentChannel ≠ "" ∧
            ValidatePaymentCard sampleInitializeBkm.PaymentCard = none)) :=
  ⟨by decide, by decide,
    FormatInitializeBkm_ignores_channel_and_card sampleInitializeBkm _ (by decide)⟩

/-- C13: two requests of the same kind that agree on every field except their basket-item
sequences, both non-empty, get the same validation result; in particular a request that
passes validation still passes it when its only basket item has all six fields empty. -/
theorem Validate_ignores_basket_item_contents
    (p1 p2 : CreatePaymentRequest) (b1 b2 : InitializeBkmRequest)
    (hSameP : SameExceptBasketItems p1 p2) (hSameB : SameExceptBasketItemsBkm b1 b2)
    (hp1 : p1.BasketItems ≠ []) (hp2 : p2.BasketItems ≠ [])
    (hb1 : b1.BasketItems ≠ []) (hb2 : b2.BasketItems ≠ []) :
    ValidateCreatePaymentRequest p1 = ValidateCreatePaymentRequest p2
      ∧ ValidateInitializeBkmRequest b1 = ValidateInitializeBkmRequest b2
      ∧ (ValidateCreatePaymentRequest p1 = none →
          ValidateCreatePaymentRequest { p1 with BasketItems := [emptyBasketItem] } = none)
      ∧ (ValidateInitializeBkmRequest b1 = none →
          ValidateInitializeBkmRequest { b1 with BasketItems := [emptyBasketItem] } = none) := by
  unfold SameExceptBasketItems at hSameP
  unfold SameExceptBasketItemsBkm at hSameB
  refine ⟨?_, ?_, ?_, ?_⟩
  · have h1 := congrArg CreatePaymentRequest.Locale hSameP
    have h2 := congrArg CreatePaymentRequest.ConversationID hSameP
    have h3 := congrArg CreatePaymentRequest.Price hSameP
    have h4 := congrArg CreatePaymentRequest.PaidPrice hSameP
    have h5 := congrArg CreatePaymentRequest.Installment hSameP
    have h6 := congrArg CreatePaymentRequest.PaymentChannel hSameP
    have h7 := congrArg CreatePaymentRequest.BasketID hSameP
    have h8 := congrArg CreatePaymentRequest.PaymentGroup hSameP
    have h9 := congrArg CreatePaymentRequest.PaymentCard hSameP
    have h10 := congrArg CreatePaymentRequest.Buyer hSameP
    have h11 := congrArg CreatePaymentRequest.ShippingAddress hSameP
    have h12 := congrArg CreatePaymentRequest.BillingAddress hSameP
    have h13 := congrArg CreatePaymentRequest.Currency hSameP
    simp only at h1 h2 h3 h4 h5 h6 h7 h8 h9 h10 h11 h12 h13
    simp only [ValidateCreatePaymentRequest, h1, h2, h3, h4, h5, h6, h7, h8, h9, h10, h11, h12,
      h13, List.length_eq_zero, hp1, hp2]
  · have h1 := congrArg InitializeBkmRequest.Locale hSameB
    have h2 := congrArg InitializeBkmRequest.ConversationID hSameB
    have h3 := congrArg InitializeBkmRequest.Price hSameB
    have h4 := congrArg InitializeBkmRequest.PaymentChannel hSameB
    have h5 := congrArg InitializeBkmRequest.BasketID hSameB
    have h6 := congrArg InitializeBkmRequest.PaymentGroup hSameB
    have h7 := congrArg InitializeBkmRequest.PaymentCard hSameB
    have h8 := congrArg InitializeBkmRequest.Buyer hSameB
    have h9 := congrArg InitializeBkmRequest.ShippingAddress hSameB
    have h10 := congrArg InitializeBkmRequest.BillingAddress hSameB
    have h11 := congrArg InitializeBkmRequest.CallbackURL hSameB
    simp only at h1 h2 h3 h4 h5 h6 h7 h8 h9 h10 h11
    simp only [ValidateInitializeBkmRequest, h1, h2, h3, h4, h5, h6, h7, h8, h9, h10, h11,
      List.length_eq_zero, hb1, hb2]
  · intro hv
    rw [← hv]
    simp only [ValidateCreatePaymentRequest, List.length_eq_zero, hp1]
    simp
  · intro hv
    rw [← hv]
    simp only [ValidateInitializeBkmRequest, List.length_eq_zero, hb1]
    simp

/-- The sample requests and the same requests with one basket item whose six fields are
empty: validation passes on all four. -/
theorem Validate_ignores_basket_item_contents_witness :
    SameExceptBasketItems sampleCreatePayment
        { sampleCreatePayment with BasketItems := [emptyBasketItem] } ∧
    SameExceptBasketItemsBkm sampleInitializeBkm
        { sampleInitializeBkm with BasketItems := [emptyBasketItem] } ∧
    ValidateCreatePaymentRequest { sampleCreatePayment with BasketItems := [emptyBasketItem] }
      = none ∧
    ValidateInitializeBkmRequest { sampleInitializeBkm with BasketItems := [emptyBasketItem] }
      = none ∧
    ValidateCreatePaymentRequest sampleCreatePayment
      = ValidateCreatePaymentRequest
          { sampleCreatePayment with BasketItems := [emptyBasketItem] } ∧
    ValidateInitializeBkmRequest sampleInitializeBkm
      = ValidateInitializeBkmRequest
          { sampleInitializeBkm with BasketItems := [emptyBasketItem] } :=
  ⟨by decide, by decide, by decide, by decide,
    (Validate_ignores_basket_item_contents sampleCreatePayment
      { sampleCreatePayment with BasketItems := [emptyBasketItem] } sampleInitializeBkm
      { sampleInitializeBkm with BasketItems := [emptyBasketItem] }
      (by decide) (by decide) (by decide) (by decide) (by decide) (by decide)).1,
    (Validate_ignores_basket_item_contents sampleCreatePayment
      { sampleCreatePayment with BasketItems := [emptyBasketItem] } sampleInitializeBkm
      { sampleInitializeBkm with BasketItems := [emptyBasketItem] }
      (by decide) (by decide) (by decide) (by decide) (by decide) (by decide)).2.1⟩

/-- C16: FormatInitializeBkm returns a string for every request, valid or not, in which every
key of the request, the buyer and the two addresses is present whatever its value, an empty
field being rendered as "key="; the request with every field empty and no basket item gives
exactly the string of the specification. -/
theorem FormatInitializeBkm_total (r : InitializeBkmRequest) :
    FormatInitializeBkm r
        = "[locale=" ++ r.Locale ++ ",conversationId=" ++ r.ConversationID ++ ",price="
          ++ r.Price ++ ",basketId=" ++ r.BasketID ++ ",paymentGroup=" ++ r.PaymentGroup
          ++ ",buyer=" ++ ("[id=" ++ r.Buyer.Id ++ ",name=" ++ r.Buyer.Name ++ ",surname="
            ++ r.Buyer.Surname ++ ",identityNumber=" ++ r.Buyer.IdentityNumber ++ ",email="
            ++ r.Buyer.Email ++ ",gsmNumber=" ++ r.Buyer.GsmNumber ++ ",registrationDate="
            ++ r.Buyer.RegistrationDate ++ ",lastLoginDate=" ++ r.Buyer.LastLoginDate
            ++ ",registrationAddress=" ++ r.Buyer.RegistrationAddress ++ ",city="
            ++ r.Buyer.City ++ ",country=" ++ r.Buyer.Country ++ ",zipCode=" ++ r.Buyer.ZipCode
            ++ ",ip=" ++ r.Buyer.Ip ++ "]")
          ++ ",shippingAddress=" ++ ("[address=" ++ r.ShippingAddress.Address ++ ",zipCode="
            ++ r.ShippingAddress.ZipCode ++ ",contactName=" ++ r.ShippingAddress.ContactName
            ++ ",city=" ++ r.ShippingAddress.City ++ ",country=" ++ r.ShippingAddress.Country
            ++ "]")
          ++ ",billingAddress=" ++ ("[address=" ++ r.BillingAddress.Address ++ ",zipCode="
            ++ r.BillingAddress.ZipCode ++ ",contactName=" ++ r.BillingAddress.ContactName
            ++ ",city=" ++ r.BillingAddress.City ++ ",country=" ++ r.BillingAddress.Country
            ++ "]")
          ++ ",basketItems=[" ++ FormatBasketItems r.BasketItems ++ "],callbackUrl="
          ++ r.CallbackURL ++ "]"
      ∧ ValidateInitializeBkmRequest emptyInitializeBkm ≠ none
      ∧ FormatInitializeBkm emptyInitializeBkm
        = "[locale=,conversationId=,price=,basketId=,paymentGroup=,buyer=[id=,name=,surname=,identityNumber=,email=,gsmNumber=,registrationDate=,lastLoginDate=,registrationAddress=,city=,country=,zipCode=,ip=],shippingAddress=[address=,zipCode=,contactName=,city=,country=],billingAddress=[address=,zipCode=,contactName=,city=,country=],basketItems=[],callbackUrl=]" := by
  refine ⟨?_, by decide, by decide⟩
  rw [FormatInitializeBkm_eq, FormatBuyer_eq, FormatAddress_eq, FormatAddress_eq]

/-- C17: both canonical strings are non-empty for every request, so neither orchestrator ever
returns the signer's error "apiKey, rnd, secretKey, or requestString is empty"; and with
non-empty credentials and a request that passes validation both orchestrators succeed. -/
theorem signer_empty_input_unreachable :
    (∀ r : InitializeBkmRequest, FormatInitializeBkm r ≠ "")
      ∧ (∀ r : CreatePaymentRequest, FormatCreatePayment r ≠ "")
      ∧ (∀ (apiKey secretKey nonce : String) (r : InitializeBkmRequest),
          (GenerateAuthorizationAndPkiString apiKey secretKey r nonce).2.2
            ≠ some "apiKey, rnd, secretKey, or requestString is empty")
      ∧ (∀ (apiKey secretKey nonce : String) (r : CreatePaymentRequest),
          (GenerateAuthorizationAndPkiStringForCreatePayment apiKey secretKey r nonce).2.2
            ≠ some "apiKey, rnd, secretKey, or requestString is empty")
      ∧ (∀ (apiKey secretKey nonce : String) (r : InitializeBkmRequest),
          apiKey ≠ "" → secretKey ≠ "" → nonce ≠ "" → ValidateInitializeBkmRequest r = none →
          (GenerateAuthorizationAndPkiString apiKey secretKey r nonce).2.2 = none)
      ∧ (∀ (apiKey secretKey nonce : String) (r : CreatePaymentRequest),
          apiKey ≠ "" → secretKey ≠ "" → nonce ≠ "" → ValidateCreatePaymentRequest r = none →
          (GenerateAuthorizationAndPkiStringForCreatePayment apiKey secretKey r nonce).2.2
            = none) := by
  refine ⟨FormatInitializeBkm_ne_empty, FormatCreatePayment_ne_empty, ?_, ?_, ?_, ?_⟩
  · intro apiKey secretKey nonce r
    by_cases hc : apiKey = "" ∨ secretKey = "" ∨ nonce = ""
    · simp only [GenerateAuthorizationAndPkiString, hc, if_true]
      decide
    · have hc2 := hc
      simp only [not_or] at hc2
      cases hv : ValidateInitializeBkmRequest r with
      | some e =>
        simp only [GenerateAuthorizationAndPkiString, hc, if_false, hv]
        intro he
        obtain ⟨c, hmem, hce⟩ := firstViolated_mem _ _ ((ValidateInitializeBkmRequest_eq r) ▸ hv)
        exact initializeBkmChecks_ne_signer r c hmem (hce.trans (Option.some.inj he))
      | none =>
        simp [GenerateAuthorizationAndPkiString, GetAuthorizationAndPkiString, hc, hv, hc2.1,
          hc2.2.1, hc2.2.2, FormatInitializeBkm_ne_empty]
  · intro apiKey secretKey nonce r
    by_cases hc : apiKey = "" ∨ secretKey = "" ∨ nonce = ""
    · simp only [GenerateAuthorizationAndPkiStringForCreatePayment, hc, if_true]
      decide
    · have hc2 := hc
      simp only [not_or] at hc2
      cases hv : ValidateCreatePaymentRequest r with
      | some e =>
        simp only [GenerateAuthorizationAndPkiStringForCreatePayment, hc, if_false, hv]
        intro he
        obtain ⟨c, hmem, hce⟩ := firstViolated_mem _ _ ((ValidateCreatePaymentRequest_eq r) ▸ hv)
        exact createPaymentChecks_ne_signer r c hmem (hce.trans (Option.some.inj he))
      | none =>
        simp [GenerateAuthorizationAndPkiStringForCreatePayment, GetAuthorizationAndPkiString,
          hc, hv, hc2.1, hc2.2.1, hc2.2.2, FormatCreatePayment_ne_empty]
  · intro apiKey secretKey nonce r h1 h2 h3 hv
    simp [GenerateAuthorizationAndPkiString, GetAuthorizationAndPkiString, h1, h2, h3, hv,
      FormatInitializeBkm_ne_empty]
  · intro apiKey secretKey nonce r h1 h2 h3 hv
    simp [GenerateAuthorizationAndPkiStringForCreatePayment, GetAuthorizationAndPkiString,
      h1, h2, h3, hv, FormatCreatePayment_ne_empty]

/-- C19: two successful calls of GetAuthorizationAndPkiString with the same apiKey and the
same concatenation rnd ++ secretKey ++ requestString return the same header and the same
pkiString; so the pairs ("ab", "c") and ("a", "bc") of nonce and secret, with the same apiKey
and request string, are signed identically. -/
theorem GetAuthorizationAndPkiString_concatenation
    (apiKey rnd1 secretKey1 request1 rnd2 secretKey2 request2 : String)
    (hOk1 : (GetAuthorizationAndPkiString apiKey rnd1 secretKey1 request1).2.2 = none)
    (hOk2 : (GetAuthorizationAndPkiString apiKey rnd2 secretKey2 request2).2.2 = none)
    (hCat : rnd1 ++ secretKey1 ++ request1 = rnd2 ++ secretKey2 ++ request2) :
    GetAuthorizationAndPkiString apiKey rnd1 secretKey1 request1
        = GetAuthorizationAndPkiString apiKey rnd2 secretKey2 request2
      ∧ (("ab", "c") ≠ ("a", "bc")
          ∧ GetAuthorizationAndPkiString "key1" "ab" "c" "[locale=tr]"
            = GetAuthorizationAndPkiString "key1" "a" "bc" "[locale=tr]"
          ∧ (GetAuthorizationAndPkiString "key1" "ab" "c" "[locale=tr]").2.2 = none) := by
  refine ⟨?_, by decide, by decide, by decide⟩
  have e1 : apiKey ++ rnd1 ++ secretKey1 ++ request1 = apiKey ++ (rnd1 ++ secretKey1 ++ request1) := by
    simp [String.append_assoc]
  have e2 : apiKey ++ rnd2 ++ secretKey2 ++ request2 = apiKey ++ (rnd2 ++ secretKey2 ++ request2) := by
    simp [String.append_assoc]
  by_cases h1 : apiKey = "" ∨ rnd1 = "" ∨ secretKey1 = "" ∨ request1 = ""
  · simp [GetAuthorizationAndPkiString, h1] at hOk1
  · by_cases h2 : apiKey = "" ∨ rnd2 = "" ∨ secretKey2 = "" ∨ request2 = ""
    · simp [GetAuthorizationAndPkiString, h2] at hOk2
    · simp only [GetAuthorizationAndPkiString, h1, h2, if_false, e1, e2, hCat]

/-- The pairs ("ab", "c") and ("a", "bc") with apiKey "key1" and request "[locale=tr]": both
calls succeed and return the same header and pkiString. -/
theorem GetAuthorizationAndPkiString_concatenation_witness :
    (GetAuthorizationAndPkiString "key1" "ab" "c" "[locale=tr]").2.2 = none ∧
    (GetAuthorizationAndPkiString "key1" "a" "bc" "[locale=tr]").2.2 = none ∧
    "ab" ++ "c" ++ "[locale=tr]" = "a" ++ "bc" ++ "[locale=tr]" ∧
    GetAuthorizationAndPkiString "key1" "ab" "c" "[locale=tr]"
      = GetAuthorizationAndPkiString "key1" "a" "bc" "[locale=tr]" :=
  ⟨by decide, by decide, by decide,
    (GetAuthorizationAndPkiString_concatenation "key1" "ab" "c" "[locale=tr]" "a" "bc"
      "[locale=tr]" (by decide) (by decide) (by decide)).1⟩

/-- C20: three CreatePaymentRequests, each with exactly one violated check (the City of the
buyer, of the shipping address, of the billing address), are rejected with the same message
"City is empty"; likewise ZipCode and Country of the buyer and of the shipping address, and
Address of the shipping and of the billing address. -/
theorem validation_error_hides_composite :
    (∃ r1 r2 r3 : CreatePaymentRequest,
        r1.Buyer.City = "" ∧ r2.ShippingAddress.City = "" ∧ r3.BillingAddress.City = "" ∧
        violatedCount (createPaymentChecks r1) = 1 ∧
        violatedCount (createPaymentChecks r2) = 1 ∧
        violatedCount (createPaymentChecks r3) = 1 ∧
        ValidateCreatePaymentRequest r1 = some "City is empty" ∧
        ValidateCreatePaymentRequest r2 = some "City is empty" ∧
        ValidateCreatePaymentRequest r3 = some "City is empty")
      ∧ (∃ r1 r2 : CreatePaymentRequest,
        r1.Buyer.ZipCode = "" ∧ r2.ShippingAddress.ZipCode = "" ∧
        violatedCount (createPaymentChecks r1) = 1 ∧
        violatedCount (createPaymentChecks r2) = 1 ∧
        ValidateCreatePaymentRequest r1 = some "ZipCode is empty" ∧
        ValidateCreatePaymentRequest r2 = some "ZipCode is empty")
      ∧ (∃ r1 r2 : CreatePaymentRequest,
        r1.Buyer.Country = "" ∧ r2.ShippingAddress.Country = "" ∧
        violatedCount (createPaymentChecks r1) = 1 ∧
        violatedCount (createPaymentChecks r2) = 1 ∧
        ValidateCreatePaymentRequest r1 = some "Country is empty" ∧
        ValidateCreatePaymentRequest r2 = some "Country is empty")
      ∧ (∃ r1 r2 : CreatePaymentRequest,
        r1.ShippingAddress.Address = "" ∧ r2.BillingAddress.Address = "" ∧
        violatedCount (createPaymentChecks r1) = 1 ∧
        violatedCount (createPaymentChecks r2) = 1 ∧
        ValidateCreatePaymentRequest r1 = some "Address is empty" ∧
        ValidateCreatePaymentRequest r2 = some "Address is empty") :=
  ⟨⟨clearField .BuyerCity sampleCreatePayment, clearField .ShippingCity sampleCreatePayment,
      clearField .BillingCity sampleCreatePayment, by decide⟩,
   ⟨clearField .BuyerZipCode sampleCreatePayment,
      clearField .ShippingZipCode sampleCreatePayment, by decide⟩,
   ⟨clearField .BuyerCountry sampleCreatePayment,
      clearField .ShippingCountry sampleCreatePayment, by decide⟩,
   ⟨clearField .ShippingAddress sampleCreatePayment,
      clearField .BillingAddress sampleCreatePayment, by decide⟩⟩

/-! ## Lemmas: decimal rendering -/

theorem digitChar_isDigit (d : Nat) (h : d < 10) : (digitChar d).isDigit = true := by
  interval_cases d <;> decide

theorem digitChar_ne_zero (d : Nat) (h0 : 0 < d) (h : d < 10) : digitChar d ≠ '0' := by
  interval_cases d <;> decide

theorem digitChar_value (d : Nat) (h : d < 10) : (digitChar d).toNat - 48 = d := by
  interval_cases d <;> decide

theorem fmtDigits_isDigit (fuel : Nat) :
    ∀ (u : Nat) (acc : List Char), (∀ c ∈ acc, c.isDigit = true) →
      ∀ c ∈ fmtDigits fuel u acc, c.isDigit = true := by
  induction fuel with
  | zero =>
    intro u acc hacc c hc
    simp only [fmtDigits, List.mem_cons] at hc
    rcases hc with rfl | hc
    · exact digitChar_isDigit _ (Nat.mod_lt _ (by decide))
    · exact hacc c hc
  | succ fuel ih =>
    intro u acc hacc c hc
    rw [fmtDigits] at hc
    split_ifs at hc with h10
    · refine ih (u / 10) _ ?_ c hc
      intro c2 hc2
      simp only [List.mem_cons] at hc2
      rcases hc2 with rfl | hc2
      · exact digitChar_isDigit _ (Nat.mod_lt _ (by decide))
      · exact hacc c2 hc2
    · simp only [List.mem_cons] at hc
      rcases hc with rfl | hc
      · exact digitChar_isDigit _ (by omega)
      · exact hacc c hc

theorem fmtDigits_head (fuel : Nat) :
    ∀ (u : Nat) (acc : List Char), u ≤ fuel → 0 < u →
      ∃ d rest, fmtDigits fuel u acc = digitChar d :: rest ∧ 0 < d ∧ d < 10 := by
  induction fuel with
  | zero => intro u acc hu h0; omega
  | succ fuel ih =>
    intro u acc hu h0
    rw [fmtDigits]
    split_ifs with h10
    · exact ih (u / 10) _ (by omega) (by omega)
    · exact ⟨u, acc, rfl, h0, by omega⟩

theorem fmtDigits_ne_nil (fuel u : Nat) (acc : List Char) : fmtDigits fuel u acc ≠ [] := by
  induction fuel generalizing u acc with
  | zero => simp [fmtDigits]
  | succ fuel ih =>
    rw [fmtDigits]
    split_ifs
    · exact ih _ _
    · simp

theorem fmtDigits_append (fuel : Nat) :
    ∀ (u : Nat) (acc : List Char), fmtDigits fuel u acc = fmtDigits fuel u [] ++ acc := by
  induction fuel with
  | zero => intro u acc; simp [fmtDigits]
  | succ fuel ih =>
    intro u acc
    rw [fmtDigits, fmtDigits]
    split_ifs
    · rw [ih (u / 10) (digitChar (u % 10) :: acc), ih (u / 10) [digitChar (u % 10)]]
      simp
    · simp

theorem decodeDigits_append_singleton (s : List Char) (c : Char) :
    decodeDigits (s ++ [c]) = 10 * decodeDigits s + (c.toNat - 48) := by
  simp [decodeDigits, List.foldl_append]

theorem decodeDigits_fmtDigits (fuel : Nat) :
    ∀ u : Nat, u ≤ fuel → decodeDigits (fmtDigits fuel u []) = u := by
  induction fuel with
  | zero =>
    intro u hu
    obtain rfl : u = 0 := by omega
    decide
  | succ fuel ih =>
    intro u hu
    rw [fmtDigits]
    split_ifs with h10
    · rw [fmtDigits_append, decodeDigits_append_singleton, ih (u / 10) (by omega),
        digitChar_value _ (Nat.mod_lt _ (by decide))]
      omega
    · have hone : decodeDigits [digitChar u] = (digitChar u).toNat - 48 := by
        simp [decodeDigits]
      rw [hone, digitChar_value _ (by omega)]

theorem PlainDecimal_fmtDigits (u : Nat) : PlainDecimal (fmtDigits u u []) := by
  refine ⟨fmtDigits_ne_nil _ _ _, fmtDigits_isDigit u u [] (by simp), ?_⟩
  rcases Nat.eq_zero_or_pos u with rfl | hpos
  · intro _
    decide
  · obtain ⟨d, rest, hd, h0, h10⟩ := fmtDigits_head u u [] le_rfl hpos
    rw [hd]
    intro hhead
    simp only [List.head?_cons, Option.some.injEq] at hhead
    exact absurd hhead (digitChar_ne_zero d h0 h10)

theorem fmtInteger_of_nonneg (i : Int) (h : 0 ≤ i) :
    fmtInteger i = fmtDigits i.natAbs i.natAbs [] := by
  have : ¬ i < 0 := by omega
  simp [fmtInteger, this]

theorem fmtInteger_of_neg (i : Int) (h : i < 0) :
    fmtInteger i = '-' :: fmtDigits i.natAbs i.natAbs [] := by
  simp [fmtInteger, h]

theorem fmtInteger_injective (i j : Int) (h : fmtInteger i = fmtInteger j) : i = j := by
  have key : ∀ a b : Int, 0 ≤ a → b < 0 → fmtInteger a ≠ fmtInteger b := by
    intro a b ha hb hab
    rw [fmtInteger_of_nonneg a ha, fmtInteger_of_neg b hb] at hab
    have hdig := fmtDigits_isDigit a.natAbs a.natAbs [] (by simp) '-' (by rw [hab]; simp)
    exact absurd hdig (by decide)
  rcases lt_or_le i 0 with hi | hi <;> rcases lt_or_le j 0 with hj | hj
  · rw [fmtInteger_of_neg i hi, fmtInteger_of_neg j hj] at h
    have h2 := congrArg decodeDigits (List.cons.inj h).2
    rw [decodeDigits_fmtDigits _ _ le_rfl, decodeDigits_fmtDigits _ _ le_rfl] at h2
    omega
  · exact absurd h.symm (key j i hj hi)
  · exact absurd h (key i j hi hj)
  · rw [fmtInteger_of_nonneg i hi, fmtInteger_of_nonneg j hj] at h
    have h2 := congrArg decodeDigits h
    rw [decodeDigits_fmtDigits _ _ le_rfl, decodeDigits_fmtDigits _ _ le_rfl] at h2
    omega

/-! ## Integer fields -/

/-- C14 fails on negative values: the sample request with Installment -2 and RegisterCard -1
passes validation, the text written after "installment=" is "-2" and the text written after
"registerCard=" is "-1", and neither is a text of plain decimal digits. -/
theorem integer_text_has_sign :
    ValidateCreatePaymentRequest negativeCreatePayment = none
      ∧ Sprintf "installment=%d," [.int negativeCreatePayment.Installment]
        = "installment=" ++ "-2" ++ ","
      ∧ FormatPaymentCard negativeCreatePayment.PaymentCard
        = "[cardHolderName=John Doe,cardNumber=5528790000000008,expireYear=2030,expireMonth=12,cvc=123,registerCard="
          ++ "-1" ++ "]"
      ∧ FormatCreatePayment negativeCreatePayment
        = "[locale=tr,conversationId=123456789,price=10,paidPrice=12,installment=-2,paymentChannel=WEB,basketId=B67832,paymentGroup=PRODUCT,paymentCard=[cardHolderName=John Doe,cardNumber=5528790000000008,expireYear=2030,expireMonth=12,cvc=123,registerCard=-1],buyer=[id=BY789,name=John,surname=Doe,identityNumber=74300864791,email=email@email.com,gsmNumber=+905350000000,registrationDate=2013-04-21 15:12:09,lastLoginDate=2015-10-05 12:43:35,registrationAddress=Nidakule,city=Istanbul,country=Turkey,zipCode=34732,ip=85.34.78.112],shippingAddress=[address=Nidakule,zipCode=34742,contactName=Jane Doe,city=Istanbul,country=Turkey],billingAddress=[address=Nidakule,contactName=Jane Doe,city=Istanbul,country=Turkey],basketItems=[[id=1,price=10,name=Book,category1=Media,category2=Books,itemType=PHYSICAL]],currency=TRY]"
      ∧ ¬ PlainDecimal "-2".data
      ∧ ¬ PlainDecimal "-1".data := by
  decide

/-- C14 as amended: the text written after "installment=" and after "registerCard=" is the
rendering of the integer by the verb %d; for a value that is not negative it consists of
plain decimal digits only, with no leading zero padding and no sign, and for a negative
value it is a minus sign followed by the plain decimal digits of the magnitude. -/
theorem integer_text_digits_and_sign (r : CreatePaymentRequest) :
    FormatCreatePayment r
        = "[locale=" ++ r.Locale ++ ",conversationId=" ++ r.ConversationID ++ ",price="
          ++ r.Price ++ ",paidPrice=" ++ r.PaidPrice ++ ",installment="
          ++ String.mk (fmtInteger r.Installment) ++ ",paymentChannel=" ++ r.PaymentChannel
          ++ ",basketId=" ++ r.BasketID ++ ",paymentGroup=" ++ r.PaymentGroup
          ++ ",paymentCard=" ++ FormatPaymentCard r.PaymentCard ++ ",buyer="
          ++ FormatBuyer r.Buyer ++ ",shippingAddress=" ++ FormatAddress r.ShippingAddress
          ++ ",billingAddress=" ++ FormatBillingAddress r.BillingAddress ++ ",basketItems=["
          ++ FormatBasketItems r.BasketItems ++ "],currency=" ++ r.Currency ++ "]"
      ∧ FormatPaymentCard r.PaymentCard
        = "[cardHolderName=" ++ r.PaymentCard.CardHolderName ++ ",cardNumber="
          ++ r.PaymentCard.CardNumber ++ ",expireYear=" ++ r.PaymentCard.ExpireYear
          ++ ",expireMonth=" ++ r.PaymentCard.ExpireMonth ++ ",cvc=" ++ r.PaymentCard.Cvc
          ++ ",registerCard=" ++ String.mk (fmtInteger r.PaymentCard.RegisterCard) ++ "]"
      ∧ (∀ i : Int, 0 ≤ i → PlainDecimal (fmtInteger i))
      ∧ (∀ i : Int, i < 0 →
          fmtInteger i = '-' :: fmtInteger (-i) ∧ PlainDecimal (fmtInteger (-i))) := by
  refine ⟨?_, ?_, ?_, ?_⟩
  · rw [fmtInteger_eq_toString]
    exact FormatCreatePayment_eq r
  · rw [fmtInteger_eq_toString]
    exact FormatPaymentCard_eq _
  · intro i hi
    rw [fmtInteger_of_nonneg i hi]
    exact PlainDecimal_fmtDigits _
  · intro i hi
    have hneg : 0 ≤ -i := by omega
    rw [fmtInteger_of_neg i hi, fmtInteger_of_nonneg (-i) hneg, Int.natAbs_neg]
    exact ⟨rfl, PlainDecimal_fmtDigits _⟩

/-! ## Lemmas: the canonical string determines a delimiter-free request -/

theorem split_unique (v1 : List Char) :
    ∀ (v2 r1 r2 : List Char), ',' ∉ v1 → ']' ∉ v1 → ',' ∉ v2 → ']' ∉ v2 →
      startsDelim r1 = true → startsDelim r2 = true → v1 ++ r1 = v2 ++ r2 →
      v1 = v2 ∧ r1 = r2 := by
  induction v1 with
  | nil =>
    intro v2 r1 r2 _ _ hc2 hb2 hr1 _ h
    cases v2 with
    | nil => exact ⟨rfl, by simpa using h⟩
    | cons y ys =>
      exfalso
      cases r1 with
      | nil => simp [startsDelim] at hr1
      | cons c t =>
        simp only [List.nil_append, List.cons_append, List.cons.injEq] at h
        simp only [startsDelim, Bool.or_eq_true, beq_iff_eq] at hr1
        simp only [List.mem_cons, not_or] at hc2 hb2
        rcases hr1 with hc | hc
        · exact hc2.1 (by rw [← hc, h.1])
        · exact hb2.1 (by rw [← hc, h.1])
  | cons x xs ih =>
    intro v2 r1 r2 hc1 hb1 hc2 hb2 hr1 hr2 h
    cases v2 with
    | nil =>
      exfalso
      cases r2 with
      | nil => simp [startsDelim] at hr2
      | cons c t =>
        simp only [List.nil_append, List.cons_append, List.cons.injEq] at h
        simp only [startsDelim, Bool.or_eq_true, beq_iff_eq] at hr2
        simp only [List.mem_cons, not_or] at hc1 hb1
        rcases hr2 with hc | hc
        · exact hc1.1 (by rw [← hc, h.1])
        · exact hb1.1 (by rw [← hc, h.1])
    | cons y ys =>
      simp only [List.cons_append, List.cons.injEq] at h
      simp only [List.mem_cons, not_or] at hc1 hb1 hc2 hb2
      obtain ⟨hv, hr⟩ := ih ys r1 r2 hc1.2 hb1.2 hc2.2 hb2.2 hr1 hr2 h.2
      exact ⟨by rw [h.1, hv], hr⟩

theorem startsDelim_append (l t : List Char) (h : startsDelim l = true) :
    startsDelim (l ++ t) = true := by
  cases l with
  | nil => simp [startsDelim] at h
  | cons c cs => simpa [startsDelim] using h

theorem renderVL_inj (lits : List (List Char)) :
    ∀ (vs1 vs2 : List (List Char)) (t1 t2 : List Char),
      (∀ l ∈ lits, startsDelim l = true) →
      vs1.length = lits.length → vs2.length = lits.length →
      (∀ v ∈ vs1, ',' ∉ v ∧ ']' ∉ v) → (∀ v ∈ vs2, ',' ∉ v ∧ ']' ∉ v) →
      renderVL vs1 lits ++ t1 = renderVL vs2 lits ++ t2 →
      vs1 = vs2 ∧ t1 = t2 := by
  induction lits with
  | nil =>
    intro vs1 vs2 t1 t2 _ h1 h2 _ _ h
    simp only [List.length_nil, List.length_eq_zero] at h1 h2
    subst h1 h2
    exact ⟨rfl, by simpa [renderVL] using h⟩
  | cons l ls ih =>
    intro vs1 vs2 t1 t2 hl h1 h2 hv1 hv2 h
    cases vs1 with
    | nil => simp at h1
    | cons a as =>
      cases vs2 with
      | nil => simp at h2
      | cons b bs =>
        simp only [renderVL, List.append_assoc] at h
        have hl0 : startsDelim l = true := hl l (by simp)
        obtain ⟨hab, hrest⟩ := split_unique a b _ _ (hv1 a (by simp)).1 (hv1 a (by simp)).2
          (hv2 b (by simp)).1 (hv2 b (by simp)).2 (startsDelim_append _ _ hl0)
          (startsDelim_append _ _ hl0) h
        have hrest2 := List.append_cancel_left hrest
        obtain ⟨htl, ht⟩ := ih as bs t1 t2 (fun l2 hl2 => hl l2 (by simp [hl2]))
          (by simpa using h1) (by simpa using h2)
          (fun v hv => hv1 v (by simp [hv])) (fun v hv => hv2 v (by simp [hv])) hrest2
        exact ⟨by rw [hab, htl], ht⟩

theorem basketItemBlock_data (b : BasketItem) :
    (basketItemBlock b).data = "[id=".data ++ renderVL (itemValues b) itemLiterals := by
  simp [basketItemBlock, renderVL, itemValues, itemLiterals]

theorem intercalate_go_data (l : List BasketItem) :
    ∀ acc : String, (String.intercalate.go acc ", " (l.map basketItemBlock)).data
      = acc.data ++ restChars l := by
  induction l with
  | nil => intro acc; simp [String.intercalate.go, restChars]
  | cons b bs ih =>
    intro acc
    simp only [List.map_cons, String.intercalate.go, ih, String.data_append,
      basketItemBlock_data, restChars, List.append_assoc]
    rfl

theorem FormatBasketItems_data (items : List BasketItem) :
    (FormatBasketItems items).data = itemsChars items := by
  rw [FormatBasketItems_eq]
  cases items with
  | nil => rfl
  | cons b bs =>
    simp only [List.map_cons, String.intercalate, intercalate_go_data, basketItemBlock_data,
      itemsChars, List.append_assoc]

theorem FormatCreatePayment_data (r : CreatePaymentRequest) :
    (FormatCreatePayment r).data
      = "[locale=".data ++ (renderVL (headValues r) headLiterals
          ++ (itemsChars r.BasketItems
            ++ ']' :: (",currency=".data ++ (r.Currency.data ++ "]".data)))) := by
  rw [FormatCreatePayment_eq, FormatPaymentCard_eq, FormatBuyer_eq, FormatAddress_eq,
    FormatBillingAddress_eq, ← fmtInteger_eq_toString, ← fmtInteger_eq_toString]
  simp [renderVL, headValues, headLiterals, FormatBasketItems_data]
theorem fmtInteger_noDelim (i : Int) : ',' ∉ fmtInteger i ∧ ']' ∉ fmtInteger i := by
  have hdig : ∀ c ∈ fmtInteger i, c = '-' ∨ c.isDigit = true := by
    intro c hc
    rcases lt_or_le i 0 with hi | hi
    · rw [fmtInteger_of_neg i hi, List.mem_cons] at hc
      rcases hc with hc | hc
      · exact Or.inl hc
      · exact Or.inr (fmtDigits_isDigit _ _ [] (by simp) c hc)
    · rw [fmtInteger_of_nonneg i hi] at hc
      exact Or.inr (fmtDigits_isDigit _ _ [] (by simp) c hc)
  constructor
  · intro hmem
    rcases hdig _ hmem with h | h
    · exact absurd h (by decide)
    · exact absurd h (by decide)
  · intro hmem
    rcases hdig _ hmem with h | h
    · exact absurd h (by decide)
    · exact absurd h (by decide)

theorem itemValues_noDelim (b : BasketItem) (h : DelimiterFreeItem b) :
    ∀ v ∈ itemValues b, ',' ∉ v ∧ ']' ∉ v := by
  obtain ⟨h1, h2, h3, h4, h5, h6⟩ := h
  intro v hv
  simp only [itemValues, List.mem_cons, List.mem_singleton, List.not_mem_nil, or_false] at hv
  rcases hv with rfl | rfl | rfl | rfl | rfl | rfl
  · exact ⟨h1.1, h1.2.2⟩
  · exact ⟨h6.1, h6.2.2⟩
  · exact ⟨h2.1, h2.2.2⟩
  · exact ⟨h3.1, h3.2.2⟩
  · exact ⟨h4.1, h4.2.2⟩
  · exact ⟨h5.1, h5.2.2⟩

theorem itemValues_injective (a b : BasketItem) (h : itemValues a = itemValues b) : a = b := by
  cases a
  cases b
  simp only [itemValues, List.cons.injEq, and_true] at h
  obtain ⟨h1, h2, h3, h4, h5, h6⟩ := h
  simp only [BasketItem.mk.injEq]
  exact ⟨String.ext h1, String.ext h3, String.ext h4, String.ext h5, String.ext h6,
    String.ext h2⟩

theorem itemLiterals_startsDelim : ∀ l ∈ itemLiterals, startsDelim l = true := by decide

theorem headLiterals_startsDelim : ∀ l ∈ headLiterals, startsDelim l = true := by decide

theorem restChars_inj (l1 : List BasketItem) :
    ∀ (l2 : List BasketItem) (r1 r2 : List Char),
      (∀ b ∈ l1, DelimiterFreeItem b) → (∀ b ∈ l2, DelimiterFreeItem b) →
      restChars l1 ++ ']' :: r1 = restChars l2 ++ ']' :: r2 → l1 = l2 ∧ r1 = r2 := by
  induction l1 with
  | nil =>
    intro l2 r1 r2 _ _ h
    cases l2 with
    | nil => exact ⟨rfl, by simpa [restChars] using h⟩
    | cons b bs =>
      exfalso
      have h0 := congrArg List.head? h
      simp [restChars] at h0
  | cons a as ih =>
    intro l2 r1 r2 hf1 hf2 h
    cases l2 with
    | nil =>
      exfalso
      have h0 := congrArg List.head? h
      simp [restChars] at h0
    | cons b bs =>
      simp only [restChars, List.append_assoc] at h
      have h2 := List.append_cancel_left h
      obtain ⟨hv, ht⟩ := renderVL_inj itemLiterals (itemValues a) (itemValues b) _ _
        itemLiterals_startsDelim rfl rfl (itemValues_noDelim a (hf1 a (by simp)))
        (itemValues_noDelim b (hf2 b (by simp))) h2
      obtain ⟨hl, hr⟩ := ih bs r1 r2 (fun x hx => hf1 x (by simp [hx]))
        (fun x hx => hf2 x (by simp [hx])) ht
      exact ⟨by rw [itemValues_injective a b hv, hl], hr⟩

theorem itemsChars_inj (l1 l2 : List BasketItem) (r1 r2 : List Char)
    (hf1 : ∀ b ∈ l1, DelimiterFreeItem b) (hf2 : ∀ b ∈ l2, DelimiterFreeItem b)
    (h : itemsChars l1 ++ ']' :: r1 = itemsChars l2 ++ ']' :: r2) : l1 = l2 ∧ r1 = r2 := by
  cases l1 with
  | nil =>
    cases l2 with
    | nil => exact ⟨rfl, by simpa [itemsChars] using h⟩
    | cons b bs =>
      exfalso
      have h0 := congrArg List.head? h
      simp [itemsChars] at h0
  | cons a as =>
    cases l2 with
    | nil =>
      exfalso
      have h0 := congrArg List.head? h
      simp [itemsChars] at h0
    | cons b bs =>
      simp only [itemsChars, List.append_assoc] at h
      have h2 := List.append_cancel_left h
      obtain ⟨hv, ht⟩ := renderVL_inj itemLiterals (itemValues a) (itemValues b) _ _
        itemLiterals_startsDelim rfl rfl (itemValues_noDelim a (hf1 a (by simp)))
        (itemValues_noDelim b (hf2 b (by simp))) h2
      obtain ⟨hl, hr⟩ := restChars_inj as bs r1 r2 (fun x hx => hf1 x (by simp [hx]))
        (fun x hx => hf2 x (by simp [hx])) ht
      exact ⟨by rw [itemValues_injective a b hv, hl], hr⟩

theorem FormatBasketItems_injective (l1 l2 : List BasketItem)
    (hf1 : ∀ b ∈ l1, DelimiterFreeItem b) (hf2 : ∀ b ∈ l2, DelimiterFreeItem b)
    (h : FormatBasketItems l1 = FormatBasketItems l2) : l1 = l2 := by
  have hd := congrArg String.data h
  rw [FormatBasketItems_data, FormatBasketItems_data] at hd
  exact (itemsChars_inj l1 l2 [] [] hf1 hf2 (by rw [hd])).1
theorem headValues_noDelim (r : CreatePaymentRequest) (h : DelimiterFreeRequest r) :
    ∀ v ∈ headValues r, ',' ∉ v ∧ ']' ∉ v := by
  obtain ⟨h1, h2, h3, h4, h5, h6, h7, c1, c2, c3, c4, c5, b1, b2, b3, b4, b5, b6, b7, b8, b9,
    b10, b11, b12, b13, s1, s2, s3, s4, s5, a1, a2, a3, a4, _, _⟩ := h
  intro v hv
  simp only [headValues, List.mem_cons, List.mem_singleton, List.not_mem_nil, or_false] at hv
  rcases hv with rfl | rfl | rfl | rfl | rfl | rfl | rfl | rfl | rfl | rfl | rfl | rfl | rfl
    | rfl | rfl | rfl | rfl | rfl | rfl | rfl | rfl | rfl | rfl | rfl | rfl | rfl | rfl | rfl
    | rfl | rfl | rfl | rfl | rfl | rfl | rfl | rfl
  all_goals first
    | exact fmtInteger_noDelim _
    | exact ⟨h1.1, h1.2.2⟩ | exact ⟨h2.1, h2.2.2⟩ | exact ⟨h3.1, h3.2.2⟩
    | exact ⟨h4.1, h4.2.2⟩ | exact ⟨h5.1, h5.2.2⟩ | exact ⟨h6.1, h6.2.2⟩
    | exact ⟨h7.1, h7.2.2⟩ | exact ⟨c1.1, c1.2.2⟩ | exact ⟨c2.1, c2.2.2⟩
    | exact ⟨c3.1, c3.2.2⟩ | exact ⟨c4.1, c4.2.2⟩ | exact ⟨c5.1, c5.2.2⟩
    | exact ⟨b1.1, b1.2.2⟩ | exact ⟨b2.1, b2.2.2⟩ | exact ⟨b3.1, b3.2.2⟩
    | exact ⟨b4.1, b4.2.2⟩ | exact ⟨b5.1, b5.2.2⟩ | exact ⟨b6.1, b6.2.2⟩
    | exact ⟨b7.1, b7.2.2⟩ | exact ⟨b8.1, b8.2.2⟩ | exact ⟨b9.1, b9.2.2⟩
    | exact ⟨b10.1, b10.2.2⟩ | exact ⟨b11.1, b11.2.2⟩ | exact ⟨b12.1, b12.2.2⟩
    | exact ⟨b13.1, b13.2.2⟩ | exact ⟨s1.1, s1.2.2⟩ | exact ⟨s2.1, s2.2.2⟩
    | exact ⟨s3.1, s3.2.2⟩ | exact ⟨s4.1, s4.2.2⟩ | exact ⟨s5.1, s5.2.2⟩
    | exact ⟨a1.1, a1.2.2⟩ | exact ⟨a2.1, a2.2.2⟩ | exact ⟨a3.1, a3.2.2⟩
    | exact ⟨a4.1, a4.2.2⟩

theorem headValues_injective (r1 r2 : CreatePaymentRequest)
    (h : headValues r1 = headValues r2) (hItems : r1.BasketItems = r2.BasketItems)
    (hCurrency : r1.Currency = r2.Currency) : r1 = r2 := by
  obtain ⟨l1, l2, l3, l4, l5, l6, l7, l8, ⟨c1, c2, c3, c4, c5, c6⟩,
    ⟨b1, b2, b3, b4, b5, b6, b7, b8, b9, b10, b11, b12, b13⟩, ⟨s1, s2, s3, s4, s5⟩,
    ⟨a1, a2, a3, a4⟩, items, cur⟩ := r1
  obtain ⟨m1, m2, m3, m4, m5, m6, m7, m8, ⟨d1, d2, d3, d4, d5, d6⟩,
    ⟨e1, e2, e3, e4, e5, e6, e7, e8, e9, e10, e11, e12, e13⟩, ⟨t1, t2, t3, t4, t5⟩,
    ⟨f1, f2, f3, f4⟩, items2, cur2⟩ := r2
  simp only [headValues, List.cons.injEq, and_true] at h
  simp only at hItems hCurrency
  obtain ⟨k1, k2, k3, k4, k5, k6, k7, k8, k9, k10, k11, k12, k13, k14, k15, k16, k17, k18,
    k19, k20, k21, k22, k23, k24, k25, k26, k27, k28, k29, k30, k31, k32, k33, k34, k35,
    k36⟩ := h
  have i5 := fmtInteger_injective _ _ k5
  have i14 := fmtInteger_injective _ _ k14
  rw [String.ext k1, String.ext k2, String.ext k3, String.ext k4, i5, String.ext k6,
    String.ext k7, String.ext k8, String.ext k9, String.ext k10, String.ext k11,
    String.ext k12, String.ext k13, i14, String.ext k15, String.ext k16, String.ext k17,
    String.ext k18, String.ext k19, String.ext k20, String.ext k21, String.ext k22,
    String.ext k23, String.ext k24, String.ext k25, String.ext k26, String.ext k27,
    String.ext k28, String.ext k29, String.ext k30, String.ext k31, String.ext k32,
    String.ext k33, String.ext k34, String.ext k35, String.ext k36, hItems, hCurrency]

theorem FormatCreatePayment_injective (r1 r2 : CreatePaymentRequest)
    (h1 : DelimiterFreeRequest r1) (h2 : DelimiterFreeRequest r2)
    (h : FormatCreatePayment r1 = FormatCreatePayment r2) : r1 = r2 := by
  have hd := congrArg String.data h
  rw [FormatCreatePayment_data, FormatCreatePayment_data] at hd
  have hd2 := List.append_cancel_left hd
  obtain ⟨hHead, hTail⟩ := renderVL_inj headLiterals (headValues r1) (headValues r2) _ _
    headLiterals_startsDelim rfl rfl (headValues_noDelim r1 h1) (headValues_noDelim r2 h2) hd2
  have hi1 : ∀ b ∈ r1.BasketItems, DelimiterFreeItem b := h1.2.2.2.2.2.2.2.2.2.2.2.2.2.2.2.2.2.2.2.2.2.2.2.2.2.2.2.2.2.2.2.2.2.2.1
  have hi2 : ∀ b ∈ r2.BasketItems, DelimiterFreeItem b := h2.2.2.2.2.2.2.2.2.2.2.2.2.2.2.2.2.2.2.2.2.2.2.2.2.2.2.2.2.2.2.2.2.2.2.1
  obtain ⟨hItems, hRest⟩ := itemsChars_inj _ _ _ _ hi1 hi2 hTail
  have hCur := List.append_cancel_right (List.append_cancel_left hRest)
  exact headValues_injective r1 r2 hHead hItems (String.ext hCur)

/-! ## Basket-item order and injectivity -/

/-- C15 fails when a field of a basket item contains the delimiter text: the sample request
with the two different basket items of the forged pair in one order and in the other order
(both pass validation) has the same canonical string. -/
theorem basket_order_collision :
    SameExceptBasketItems
        { sampleCreatePayment with BasketItems := [bookBasketItem, forgedBasketItem] }
        { sampleCreatePayment with BasketItems := [forgedBasketItem, bookBasketItem] }
      ∧ List.Perm [bookBasketItem, forgedBasketItem] [forgedBasketItem, bookBasketItem]
      ∧ [bookBasketItem, forgedBasketItem] ≠ [forgedBasketItem, bookBasketItem]
      ∧ ValidateCreatePaymentRequest
          { sampleCreatePayment with BasketItems := [bookBasketItem, forgedBasketItem] } = none
      ∧ ValidateCreatePaymentRequest
          { sampleCreatePayment with BasketItems := [forgedBasketItem, bookBasketItem] } = none
      ∧ FormatBasketItems [bookBasketItem, forgedBasketItem]
        = "[id=1,price=10,name=Book,category1=Media,category2=Books,itemType=PHYSICAL], [id=1,price=10,name=Book,category1=Media,category2=Books,itemType=PHYSICAL], [id=1,price=10,name=Book,category1=Media,category2=Books,itemType=PHYSICAL]"
      ∧ FormatBasketItems [forgedBasketItem, bookBasketItem]
        = "[id=1,price=10,name=Book,category1=Media,category2=Books,itemType=PHYSICAL], [id=1,price=10,name=Book,category1=Media,category2=Books,itemType=PHYSICAL], [id=1,price=10,name=Book,category1=Media,category2=Books,itemType=PHYSICAL]"
      ∧ FormatCreatePayment
          { sampleCreatePayment with BasketItems := [bookBasketItem, forgedBasketItem] }
        = FormatCreatePayment
          { sampleCreatePayment with BasketItems := [forgedBasketItem, bookBasketItem] } :=
  ⟨by decide, List.Perm.swap _ _ _, by decide, by decide, by decide, by decide, by decide,
    by decide⟩

/-- C15 as amended: two CreatePaymentRequests that are identical except that their
basket-item sequences are two different orderings of the same items, no field of which
contains ',', '[' or ']', have different canonical strings. -/
theorem basket_order_changes_string (r1 r2 : CreatePaymentRequest)
    (hSame : SameExceptBasketItems r1 r2)
    (hPerm : List.Perm r1.BasketItems r2.BasketItems)
    (hDifferent : r1.BasketItems ≠ r2.BasketItems)
    (hFree : ∀ b ∈ r1.BasketItems, DelimiterFreeItem b) :
    FormatCreatePayment r1 ≠ FormatCreatePayment r2 := by
  intro h
  unfold SameExceptBasketItems at hSame
  have e1 := congrArg CreatePaymentRequest.Locale hSame
  have e2 := congrArg CreatePaymentRequest.ConversationID hSame
  have e3 := congrArg CreatePaymentRequest.Price hSame
  have e4 := congrArg CreatePaymentRequest.PaidPrice hSame
  have e5 := congrArg CreatePaymentRequest.Installment hSame
  have e6 := congrArg CreatePaymentRequest.PaymentChannel hSame
  have e7 := congrArg CreatePaymentRequest.BasketID hSame
  have e8 := congrArg CreatePaymentRequest.PaymentGroup hSame
  have e9 := congrArg CreatePaymentRequest.PaymentCard hSame
  have e10 := congrArg CreatePaymentRequest.Buyer hSame
  have e11 := congrArg CreatePaymentRequest.ShippingAddress hSame
  have e12 := congrArg CreatePaymentRequest.BillingAddress hSame
  have e13 := congrArg CreatePaymentRequest.Currency hSame
  simp only at e1 e2 e3 e4 e5 e6 e7 e8 e9 e10 e11 e12 e13
  rw [FormatCreatePayment_eq, FormatCreatePayment_eq, e1, e2, e3, e4, e5, e6, e7, e8, e9, e10,
    e11, e12, e13] at h
  have hd := congrArg String.data h
  simp only [String.data_append] at hd
  have hItems := List.append_cancel_left (List.append_cancel_right
    (List.append_cancel_right (List.append_cancel_right hd)))
  have hFree2 : ∀ b ∈ r2.BasketItems, DelimiterFreeItem b :=
    fun b hb => hFree b (hPerm.mem_iff.2 hb)
  exact hDifferent (FormatBasketItems_injective _ _ hFree hFree2 (String.ext hItems))

/-- Two delimiter-free basket items in the two orders: the canonical strings differ. -/
theorem basket_order_changes_string_witness :
    SameExceptBasketItems
        { sampleCreatePayment with BasketItems := [bookBasketItem, emptyBasketItem] }
        { sampleCreatePayment with BasketItems := [emptyBasketItem, bookBasketItem] } ∧
    List.Perm [bookBasketItem, emptyBasketItem] [emptyBasketItem, bookBasketItem] ∧
    [bookBasketItem, emptyBasketItem] ≠ [emptyBasketItem, bookBasketItem] ∧
    (∀ b ∈ [bookBasketItem, emptyBasketItem], DelimiterFreeItem b) ∧
    FormatCreatePayment
        { sampleCreatePayment with BasketItems := [bookBasketItem, emptyBasketItem] }
      ≠ FormatCreatePayment
        { sampleCreatePayment with BasketItems := [emptyBasketItem, bookBasketItem] } :=
  ⟨by decide, List.Perm.swap _ _ _, by decide, by decide,
    basket_order_changes_string
      { sampleCreatePayment with BasketItems := [bookBasketItem, emptyBasketItem] }
      { sampleCreatePayment with BasketItems := [emptyBasketItem, bookBasketItem] }
      (by decide) (List.Perm.swap _ _ _) (by decide) (by decide)⟩

/-- C18: on CreatePaymentRequests in which no string field contains ',', '[' or ']', equal
canonical strings imply equal requests (Installment, RegisterCard and the basket-item
sequence included). -/
theorem FormatCreatePayment_injective_on_delimiterFree (r1 r2 : CreatePaymentRequest)
    (hFree1 : DelimiterFreeRequest r1) (hFree2 : DelimiterFreeRequest r2)
    (hEqual : FormatCreatePayment r1 = FormatCreatePayment r2) :
    r1 = r2 ∧ r1.Installment = r2.Installment
      ∧ r1.PaymentCard.RegisterCard = r2.PaymentCard.RegisterCard
      ∧ r1.BasketItems = r2.BasketItems := by
  have h := FormatCreatePayment_injective r1 r2 hFree1 hFree2 hEqual
  subst h
  exact ⟨rfl, rfl, rfl, rfl⟩

/-- The sample request is delimiter-free, so the theorem applies to it; and a delimiter-free
request with a different Installment has a different canonical string. -/
theorem FormatCreatePayment_injective_on_delimiterFree_witness :
    DelimiterFreeRequest sampleCreatePayment ∧
    FormatCreatePayment sampleCreatePayment = FormatCreatePayment sampleCreatePayment ∧
    (sampleCreatePayment = sampleCreatePayment
      ∧ sampleCreatePayment.Installment = sampleCreatePayment.Installment
      ∧ sampleCreatePayment.PaymentCard.RegisterCard
          = sampleCreatePayment.PaymentCard.RegisterCard
      ∧ sampleCreatePayment.BasketItems = sampleCreatePayment.BasketItems) ∧
    DelimiterFreeRequest { sampleCreatePayment with Installment := 12 } ∧
    FormatCreatePayment sampleCreatePayment
      ≠ FormatCreatePayment { sampleCreatePayment with Installment := 12 } :=
  ⟨by decide, rfl,
    FormatCreatePayment_injective_on_delimiterFree sampleCreatePayment sampleCreatePayment
      (by decide) (by decide) rfl,
    by decide, fun h =>
    absurd (FormatCreatePayment_injective_on_delimiterFree sampleCreatePayment
      { sampleCreatePayment with Installment := 12 } (by decide) (by decide) h).2.1
      (by decide)⟩

end Iyzico
